import Mathlib

/-! # Live football API (`src/api.js`): extraction and caching

A shallow embedding of the two request handlers of `src/api.js`
(`/api/matches` and `/api/matches/details/:id`), of the two module-level
caches they share, and of the page evaluations of `scrapeMatches` and
`scrapeMatchDetails`.

* Strings are Lean strings; `trim`, `includes` and `replace` are written out
  on the character lists.
* The rendered page is represented by the answers it gives to the DOM
  queries the source makes (`querySelector`, `closest`, `getAttribute`,
  `classList`, `textContent`).
* The browser, the network and the clock are an explicit `World` handed to
  each handler call; a handler returns the new cache state, the response it
  sent, the scrapes it started and the time it spent awaiting them.
* Requests are served one after the other; a scrape that returns has awaited
  at least the 3000 ms timer of `scrapeMatches` / `scrapeMatchDetails`.
-/

namespace LiveScore

/-! ## Strings -/

/-- The minute mark, U+0027. -/
def minuteMark : Char := Char.ofNat 39

/-- White space and line terminators removed by `String.prototype.trim`. -/
def isTrimChar (c : Char) : Bool :=
  decide (c.toNat ∈ [9, 10, 11, 12, 13, 32, 160, 5760, 8232, 8233, 8239, 8287, 12288, 65279])
    || (decide (8192 ≤ c.toNat) && decide (c.toNat ≤ 8202))

/-- The characters of `s.trim()`. -/
def trimChars (cs : List Char) : List Char :=
  ((cs.dropWhile isTrimChar).reverse.dropWhile isTrimChar).reverse

/-- The JavaScript `s.trim()`. -/
def trim (s : String) : String := ⟨trimChars s.data⟩

/-- The JavaScript `s.includes(c)` for a one-character needle. -/
def includesChar (s : String) (c : Char) : Bool := s.data.contains c

/-- The JavaScript `s.endsWith(c)` for a one-character needle. -/
def endsWithChar (s : String) (c : Char) : Bool := s.data.getLast? == some c

/-- The JavaScript `s.replace(pat, rep)` with string arguments, on character
lists: only the first occurrence of `pat` is replaced. -/
def replaceFirstChars (pat rep : List Char) : List Char → List Char
  | [] => if pat = [] then rep else []
  | c :: cs =>
    if pat.isPrefixOf (c :: cs) then rep ++ (c :: cs).drop pat.length
    else c :: replaceFirstChars pat rep cs

/-- The JavaScript `s.replace(pat, rep)` with string arguments. -/
def replaceFirst (s pat rep : String) : String :=
  ⟨replaceFirstChars pat.data rep.data s.data⟩

/-! ## The rendered list page -/

/-- An element reduced to what the source reads of it: `textContent` and
`classList`. -/
structure Element where
  textContent : String
  classList : List String
deriving DecidableEq, Repr

/-- The `.game-info` element of a match container: the answer to
`querySelector('.match-status__minutes, .status')` and the `textContent` of
the answer to `querySelector('.t')`. -/
structure GameInfo where
  liveTimeElement : Option Element
  scheduledTimeElement : Option String
deriving DecidableEq, Repr

/-- The enclosing `section.games`: the `textContent` of `a.games-cat` and of
`a.games-slug`. -/
structure LeagueElement where
  countryElement : Option String
  leagueNameElement : Option String
deriving DecidableEq, Repr

/-- A `.player` fragment: the `textContent` of its `a` and of its
`span span:last-child`. -/
structure PlayerElement where
  nameElement : Option String
  timeElement : Option String
deriving DecidableEq, Repr

/-- A `div[data-game-id]` match container, as the answers to the queries of
the page evaluation of `scrapeMatches`; an absent element is `none`, element
answers are given by their `textContent` (bullets by their `classList`). -/
structure MatchElement where
  leagueElement : Option LeagueElement
  gameInfoElement : Option GameInfo
  homeTeamElement : Option String
  awayTeamElement : Option String
  homeScoreElement : Option String
  awayScoreElement : Option String
  /-- The `href` of `closest('a[href*="/football/game/"]')`. -/
  matchLinkElement : Option String
  /-- The `data-game-id` attribute. -/
  gameId : String
  /-- Whether `querySelector('.livestream-icon')` finds an element. -/
  livestreamIcon : Bool
  homeFormElements : List (List String)
  awayFormElements : List (List String)
  homePlayerElements : List PlayerElement
  awayPlayerElements : List PlayerElement
  roundElement : Option String
deriving DecidableEq, Repr

/-! ## The match list records -/

structure League where
  country : String
  name : String
deriving DecidableEq, Repr

structure Score where
  home : String
  away : String
  full : String
deriving DecidableEq, Repr

/-- The `match` object of a list record. -/
structure MatchInfo where
  id : String
  time : String
  status : String
  round : String
  homeTeam : String
  awayTeam : String
  score : Score
  hasLivestream : Bool
  link : String
deriving DecidableEq, Repr

/-- One object pushed to `matches`. -/
structure MatchRecord where
  league : League
  game : MatchInfo
deriving DecidableEq, Repr

/-- A scorer collected in `homeScorers` / `awayScorers`. -/
structure Scorer where
  name : String
  time : String
deriving DecidableEq, Repr

/-- The `textContent.trim()` of an optional element, with the default used
when the element is absent. -/
def textOr (e : Option String) (dflt : String) : String :=
  match e with
  | some t => trim t
  | none => dflt

/-- Lines 226-253 of `src/api.js`: `(matchTime, matchStatus)` of a match
container. -/
def timeAndStatus (gameInfoElement : Option GameInfo) : String × String :=
  let liveTimeElement := gameInfoElement.bind (·.liveTimeElement)
  let scheduled : String × String :=
    (textOr (gameInfoElement.bind (·.scheduledTimeElement)) "TBD", "Scheduled")
  match liveTimeElement with
  | none => scheduled
  | some e =>
    if trim e.textContent ≠ "" then
      let matchTime := trim e.textContent
      if e.classList.contains "color--blue" then (matchTime, "HalfTime")
      else if e.classList.contains "color--red" then
        (if !includesChar matchTime minuteMark then matchTime.push minuteMark else matchTime,
          "Live")
      else if e.classList.contains "color--green" then (matchTime, "Finished")
      else (matchTime, "Unknown")
    else scheduled

/-- The form letter of one `.bullet` (lines 283-288). -/
def formLetter (classList : List String) : String :=
  if classList.contains "color--green" then "W"
  else if classList.contains "color--red" then "L"
  else if classList.contains "color--yellow" then "D"
  else "U"

/-- The scorers kept from a list of `.player` fragments (lines 304-317). -/
def scorers (players : List PlayerElement) : List Scorer :=
  players.filterMap fun p =>
    let player := textOr p.nameElement ""
    let eventTime := textOr p.timeElement ""
    if player ≠ "" ∧ eventTime ≠ "" then some ⟨player, eventTime⟩ else none

/-- Line 356: the `link` of a list record. -/
def linkOf (matchLink : String) : String :=
  if matchLink ≠ "" then "https://azscore.ng" ++ replaceFirst matchLink "/game/" "/stats/"
  else ""

/-- The object pushed to `matches` for one container (lines 216-358). The
source also computes `homeForm`, `awayForm`, `homeScorers` and `awayScorers`
(lines 280-332, here `formLetter` and `scorers`); the pushed object has no
field for them. -/
def extractMatch (matchElement : MatchElement) : MatchRecord :=
  let country := textOr (matchElement.leagueElement.bind (·.countryElement)) "Unknown"
  let leagueName := textOr (matchElement.leagueElement.bind (·.leagueNameElement)) "Unknown"
  let ts := timeAndStatus matchElement.gameInfoElement
  let homeTeam := textOr matchElement.homeTeamElement ""
  let awayTeam := textOr matchElement.awayTeamElement ""
  let homeScore := textOr matchElement.homeScoreElement "0"
  let awayScore := textOr matchElement.awayScoreElement "0"
  let matchLink := matchElement.matchLinkElement.getD ""
  let round := textOr matchElement.roundElement ""
  { league := { country := country, name := leagueName }
    game :=
      { id := matchElement.gameId
        time := ts.1
        status := ts.2
        round := round
        homeTeam := homeTeam
        awayTeam := awayTeam
        score := { home := homeScore, away := awayScore, full := homeScore ++ "-" ++ awayScore }
        hasLivestream := matchElement.livestreamIcon
        link := linkOf matchLink } }

/-- The value of the page evaluation of `scrapeMatches` (lines 209-365): one
record per `div[data-game-id]`, in document order. -/
def evaluateMatches (matchElements : List MatchElement) : List MatchRecord :=
  matchElements.map extractMatch

/-! ## The match detail payload -/

structure DetailMatchInfo where
  date : String
  scheduledTime : String
  round : String
deriving DecidableEq, Repr

structure TeamDetail where
  name : String
  score : String
  form : List String
deriving DecidableEq, Repr

structure Statistic where
  name : String
  home : String
  away : String
deriving DecidableEq, Repr

/-- An entry of `events`; `type` is always `goal`. -/
structure MatchEvent where
  time : String
  type : String
  player : String
  team : String
deriving DecidableEq, Repr

structure LineupPlayer where
  name : String
  number : String
deriving DecidableEq, Repr

structure Odds where
  bookmaker : String
  home : String
  draw : String
  away : String
deriving DecidableEq, Repr

/-- The object returned by the `try` branch of the detail page evaluation
(lines 605-638). -/
structure MatchDetail where
  matchInfo : DetailMatchInfo
  status : String
  time : String
  home : TeamDetail
  away : TeamDetail
  venue : String
  scoreFull : String
  statistics : List Statistic
  events : List MatchEvent
  lineupsHome : List LineupPlayer
  lineupsAway : List LineupPlayer
  odds : List Odds
deriving DecidableEq, Repr

/-- The value of the detail page evaluation (lines 430-646): the detail
object, or the object `{error, message}` of its `catch` branch. -/
inductive DetailPayload where
  | parsed (detail : MatchDetail)
  | parseError (error : String) (message : String)
deriving DecidableEq, Repr

/-- The object returned by `scrapeMatchDetails` (lines 648-652). -/
structure DetailResult where
  timestamp : String
  source : String
  details : DetailPayload
deriving DecidableEq, Repr

/-! ## The caches -/

def CACHE_DURATION : Int := 6 * 1000

def MATCH_DETAILS_CACHE_DURATION : Int := 6 * 1000

/-- The delay awaited by each scrape after navigation (lines 206 and 427). -/
def SETTLE_DELAY : Nat := 3000

/-- The object assigned to `cachedData` (lines 69-73). -/
structure MatchesData where
  timestamp : String
  source : String
  /-- The field `matches`. -/
  matchList : List MatchRecord
deriving DecidableEq, Repr

/-- A value of `matchDetailsCache` (lines 136-139). -/
structure DetailsEntry where
  timestamp : Int
  data : DetailResult
deriving DecidableEq, Repr

/-- The `Map` of line 21 as its list of entries, in insertion order. -/
abbrev DetailsCache := List (String × DetailsEntry)

/-- The lookup `Map.prototype.get`. -/
def DetailsCache.get : DetailsCache → String → Option DetailsEntry
  | [], _ => none
  | (k, v) :: rest, key => if k = key then some v else DetailsCache.get rest key

/-- The update `Map.prototype.set`: the value of an existing key is replaced
in place, a new key is appended. -/
def DetailsCache.set : DetailsCache → String → DetailsEntry → DetailsCache
  | [], key, value => [(key, value)]
  | (k, v) :: rest, key, value =>
    if k = key then (k, value) :: rest else (k, v) :: DetailsCache.set rest key value

/-- The keys of a `Map` are pairwise distinct. -/
def DetailsCache.WellFormed (c : DetailsCache) : Prop := (c.map Prod.fst).Nodup

instance (c : DetailsCache) : Decidable c.WellFormed :=
  inferInstanceAs (Decidable (c.map Prod.fst).Nodup)

/-- The module-level state of `src/api.js` (lines 16-21). -/
structure State where
  cachedData : Option MatchesData
  lastFetchTime : Option Int
  matchDetailsCache : DetailsCache
deriving DecidableEq, Repr

/-- The state at start-up. -/
def State.init : State := ⟨none, none, []⟩

/-! ## The world of one request -/

/-- A page that rendered: what its evaluation reads, and the time spent
launching the browser, navigating and evaluating, the settle delay apart. -/
structure Rendered (α : Type) where
  document : α
  loadMs : Nat

/-- The result of a scrape that returned, with the time it took. -/
structure Scraped (α : Type) where
  value : α
  ms : Nat

/-- What one handler call meets outside the process: the clock reading of
its `new Date().getTime()`, the formatting `toISOString` of a clock reading,
the list page at `https://azscore.ng/live` and the detail page at each URL.
A page is an error message when launching, navigating or evaluating throws.
The detail page is given by the value of its evaluation. -/
structure World where
  now : Int
  toISOString : Int → String
  listPage : Except String (Rendered (List MatchElement))
  detailPage : String → Except String (Rendered DetailPayload)

/-- The function `scrapeMatches` (lines 159-378). -/
def scrapeMatches (w : World) : Except String (Scraped (List MatchRecord)) :=
  match w.listPage with
  | .error message => .error message
  | .ok page => .ok ⟨evaluateMatches page.document, page.loadMs + SETTLE_DELAY⟩

/-- The function `scrapeMatchDetails` (lines 381-662), started at clock
reading `startedAt`. -/
def scrapeMatchDetails (w : World) (matchUrl : String) (startedAt : Int) :
    Except String (Scraped DetailResult) :=
  match w.detailPage matchUrl with
  | .error message => .error message
  | .ok page =>
    .ok ⟨{ timestamp := w.toISOString (startedAt + (page.loadMs + SETTLE_DELAY : Nat))
           source := matchUrl
           details := page.document },
         page.loadMs + SETTLE_DELAY⟩

/-! ## The request handlers -/

/-- A call of one of the two scrape functions. -/
inductive ScrapeCall where
  | list
  | details (matchUrl : String)
deriving DecidableEq, Repr

/-- The response sent by a handler. -/
inductive Response where
  | list (body : MatchesData)
  | details (body : DetailResult)
  | error (status : Nat) (error : String) (message : Option String)
deriving DecidableEq, Repr

/-- The effect of one handler call: the state it leaves, the response, the
scrape calls it made in order, and the time awaited in the scrapes that
returned. The handler reads the clock once, on entry (`World.now`); after
the scrapes it awaited the clock reads `now + elapsed`. -/
structure Outcome where
  state : State
  response : Response
  scrapes : List ScrapeCall
  elapsed : Nat

/-- The test of lines 54-59 without `!forceRefresh`: the cached data when
`cachedData && lastFetchTime && (currentTime - lastFetchTime) < CACHE_DURATION`. -/
def freshMatches (s : State) (currentTime : Int) : Option MatchesData :=
  match s.cachedData, s.lastFetchTime with
  | some data, some t =>
    if t ≠ 0 ∧ currentTime - t < CACHE_DURATION then some data else none
  | _, _ => none

/-- The handler of `/api/matches` (lines 48-86). -/
def getMatches (s : State) (forceRefresh : Bool) (w : World) : Outcome :=
  let currentTime := w.now
  match (if forceRefresh then none else freshMatches s currentTime) with
  | some data => ⟨s, .list data, [], 0⟩
  | none =>
    match scrapeMatches w with
    | .error message =>
      ⟨s, .error 500 "Failed to fetch matches data" (some message), [.list], 0⟩
    | .ok r =>
      let data : MatchesData :=
        { timestamp := w.toISOString (currentTime + (r.ms : Nat))
          source := "azscore.ng/live"
          matchList := r.value }
      ⟨{ s with cachedData := some data, lastFetchTime := some currentTime },
        .list data, [.list], r.ms⟩

/-- The test of lines 98-103: the cached details of `matchId` when the entry
exists and `(currentTime - cachedDetails.timestamp) < MATCH_DETAILS_CACHE_DURATION`. -/
def freshDetails (s : State) (matchId : String) (currentTime : Int) : Option DetailResult :=
  match s.matchDetailsCache.get matchId with
  | some cachedDetails =>
    if currentTime - cachedDetails.timestamp < MATCH_DETAILS_CACHE_DURATION then
      some cachedDetails.data
    else none
  | none => none

/-- The search of lines 112-115 and 122-125: the link of the first record
with this id, when that link is not empty. -/
def findLink (matchesData : List MatchRecord) (matchId : String) : Option String :=
  match matchesData.find? (fun m => m.game.id == matchId) with
  | some m => if m.game.link ≠ "" then some m.game.link else none
  | none => none

/-- The `matchLink` after lines 109-116. -/
def cachedLink (s : State) (matchId : String) : Option String :=
  match s.cachedData with
  | some data => findLink data.matchList matchId
  | none => none

/-- Lines 132-142: scrape the details at `matchLink`, store them under
`matchId` with the `currentTime` read at the start of the handler, and send
them. `scrapes` and `elapsed` are what the handler did before. -/
def scrapeAndStore (s : State) (matchId matchLink : String) (w : World)
    (scrapes : List ScrapeCall) (elapsed : Nat) : Outcome :=
  match scrapeMatchDetails w matchLink (w.now + (elapsed : Nat)) with
  | .error message =>
    ⟨s, .error 500 "Failed to fetch match details" (some message),
      scrapes ++ [.details matchLink], elapsed⟩
  | .ok r =>
    ⟨{ s with matchDetailsCache := s.matchDetailsCache.set matchId ⟨w.now, r.value⟩ },
      .details r.value, scrapes ++ [.details matchLink], elapsed + r.ms⟩

/-- The handler of `/api/matches/details/:id` (lines 89-151), with
`matchId = req.query.id || req.params.id`. -/
def getDetails (s : State) (matchId : String) (w : World) : Outcome :=
  if matchId = "" then ⟨s, .error 400 "Match ID is required" none, [], 0⟩
  else
    let currentTime := w.now
    match freshDetails s matchId currentTime with
    | some data => ⟨s, .details data, [], 0⟩
    | none =>
      match cachedLink s matchId with
      | some matchLink => scrapeAndStore s matchId matchLink w [] 0
      | none =>
        match scrapeMatches w with
        | .error message =>
          ⟨s, .error 500 "Failed to fetch match details" (some message), [.list], 0⟩
        | .ok r =>
          match findLink r.value matchId with
          | some matchLink => scrapeAndStore s matchId matchLink w [.list] r.ms
          | none => ⟨s, .error 404 "Match not found" none, [.list], r.ms⟩

/-- Whether the scrape call `c`, made in world `w`, throws. -/
def raises (w : World) (c : ScrapeCall) : Bool :=
  match c with
  | .list => match w.listPage with
    | .error _ => true
    | .ok _ => false
  | .details matchUrl => match w.detailPage matchUrl with
    | .error _ => true
    | .ok _ => false

/-- A request to one of the two handlers. -/
inductive Request where
  | list (forceRefresh : Bool)
  | details (matchId : String)
deriving DecidableEq, Repr

/-- One request served in one world. -/
def handle (s : State) (req : Request) (w : World) : Outcome :=
  match req with
  | .list forceRefresh => getMatches s forceRefresh w
  | .details matchId => getDetails s matchId w

/-- The state after serving the requests in order, each in its own world. -/
def serve (s : State) : List (Request × World) → State
  | [] => s
  | (req, w) :: rest => serve (handle s req w).state rest


/-! ## Requests in between, and sample pages -/

/-- A request that leaves a list entry fetched at `fetchedAt` in place: any
details request, or a list request that does not force a refresh and is made
less than 6000 ms after `fetchedAt`. -/
def keepsList (fetchedAt : Int) (q : Request × World) : Bool :=
  match q.1 with
  | .details _ => true
  | .list forceRefresh => !forceRefresh && decide (q.2.now - fetchedAt < 6000)

/-- A match container with this id and this `href` of the enclosing game
anchor, every other query answering with no element. -/
def container (gameId : String) (href : Option String) : MatchElement :=
  { leagueElement := none, gameInfoElement := none, homeTeamElement := none,
    awayTeamElement := none, homeScoreElement := none, awayScoreElement := none,
    matchLinkElement := href, gameId := gameId, livestreamIcon := false,
    homeFormElements := [], awayFormElements := [], homePlayerElements := [],
    awayPlayerElements := [], roundElement := none }

/-- A match container with this `.game-info`, every other query answering
with no element. -/
def containerWith (gameInfo : GameInfo) : MatchElement :=
  { container "1" none with gameInfoElement := some gameInfo }

/-- A world whose clock is formatted in decimal and whose pages, when they
render, take `loadMs` besides the settle delay. -/
def world (now : Int) (loadMs : Nat) (listPage : Except String (List MatchElement))
    (detailPage : String → Except String DetailPayload) : World :=
  { now := now
    toISOString := fun t => toString t
    listPage := listPage.map fun document => ⟨document, loadMs⟩
    detailPage := fun matchUrl => (detailPage matchUrl).map fun document => ⟨document, loadMs⟩ }

/-- A detail page with two teams and nothing else. -/
def sampleDetail : MatchDetail :=
  { matchInfo := ⟨"", "", ""⟩, status := "Unknown", time := ""
    home := ⟨"Lions", "0", []⟩, away := ⟨"Tigers", "0", []⟩
    venue := "", scoreFull := "0-0", statistics := [], events := []
    lineupsHome := [], lineupsAway := [], odds := [] }

/-- Every detail page renders and parses. -/
def detailOk : String → Except String DetailPayload := fun _ => .ok (.parsed sampleDetail)

/-- Every detail page renders, and its evaluation ends in the `catch` branch. -/
def detailUnparsed : String → Except String DetailPayload :=
  fun _ => .ok (.parseError "Failed to parse match details" "document is not defined")

/-- No detail page can be reached. -/
def detailDown : String → Except String DetailPayload :=
  fun _ => .error "Navigation timeout of 30000 ms exceeded"

/-- A list page with match 7. -/
def pageOne : List MatchElement := [container "7" (some "/en/football/game/lions-tigers")]

/-- A list page with matches 7 and 8. -/
def pageTwo : List MatchElement :=
  [container "7" (some "/en/football/game/lions-tigers"),
   container "8" (some "/en/football/game/owls-bears")]

/-- A list page showing match 7 twice, the first time outside a game anchor. -/
def pageTwins : List MatchElement :=
  [container "7" none, container "7" (some "/en/football/game/lions-tigers")]

/-- The link of match 7 in the list records. -/
def linkSeven : String := "https://azscore.ng/en/football/stats/lions-tigers"

/-- The first list request after start-up, at clock reading 1000. -/
def firstFetch : Outcome := getMatches State.init false (world 1000 200 (.ok pageOne) detailDown)

/-- A list request at clock reading 6500, answered from the cache. -/
def cachedReply : Outcome :=
  getMatches firstFetch.state false (world 6500 200 (.ok pageTwo) detailDown)

/-- A list request at clock reading 7500, 1000 ms after `cachedReply`. -/
def lateCall : Outcome :=
  getMatches cachedReply.state false (world 7500 200 (.ok pageTwo) detailDown)

/-- The first list request after start-up, on the page showing match 7 twice. -/
def twinFetch : Outcome :=
  getMatches State.init false (world 1000 200 (.ok pageTwins) detailDown)

/-- A details request for match 7 at start-up, at clock reading 1000. -/
def coldDetails : Outcome := getDetails State.init "7" (world 1000 200 (.ok pageOne) detailOk)

/-- A details request for match 7 at clock reading 9000, after `coldDetails`. -/
def secondDetails : Outcome :=
  getDetails coldDetails.state "7" (world 9000 200 (.ok pageOne) detailOk)

/-- A status indicator in stoppage time, tagged red. -/
def stoppageTime : MatchElement :=
  containerWith ⟨some ⟨"45\x27+2", ["status", "color--red"]⟩, none⟩

/-- A status indicator showing minute 45, tagged red. -/
def minute45 : MatchElement :=
  containerWith ⟨some ⟨" 45 ", ["status", "color--red"]⟩, none⟩

/-- A status indicator holding only blanks, tagged red. -/
def blankIndicator : MatchElement :=
  containerWith ⟨some ⟨"   ", ["status", "color--red"]⟩, none⟩

/-- A status indicator tagged both blue and red. -/
def blueAndRed : MatchElement :=
  containerWith ⟨some ⟨"45", ["status", "color--blue", "color--red"]⟩, none⟩

/-- A status indicator of a finished match, tagged green. -/
def fullTime : MatchElement :=
  containerWith ⟨some ⟨"FT", ["status", "color--green"]⟩, none⟩

/-- A container with no status indicator and a scheduled time written with
blanks around it. -/
def kickOffPadded : MatchElement := containerWith ⟨none, some " 19:00 "⟩

/-- A container with no status indicator and a scheduled time with no blanks
around it. -/
def kickOff : MatchElement := containerWith ⟨none, some "19:00"⟩

/-! ## Occurrences of a substring -/

/-- The number of positions of `s` at which `pat` occurs, overlapping
occurrences included. -/
def countOccurrences (pat : List Char) : List Char → Nat
  | [] => if pat.isPrefixOf [] then 1 else 0
  | c :: cs => (if pat.isPrefixOf (c :: cs) then 1 else 0) + countOccurrences pat cs

/-- The number of occurrences of `pat` in `s`: `s.includes(pat)` is
`0 < occurrences s pat`. -/
def occurrences (s pat : String) : Nat := countOccurrences pat.data s.data

/-! ## Form and scorers of a list container -/

/-- The array `homeForm` of lines 283-288. -/
def homeForm (matchElement : MatchElement) : List String :=
  matchElement.homeFormElements.map formLetter

/-- The array `awayForm` of lines 290-295. -/
def awayForm (matchElement : MatchElement) : List String :=
  matchElement.awayFormElements.map formLetter

/-- The array `homeScorers` after the loop of lines 304-317. -/
def homeScorers (matchElement : MatchElement) : List Scorer :=
  scorers matchElement.homePlayerElements

/-- The array `awayScorers` after the loop of lines 319-332. -/
def awayScorers (matchElement : MatchElement) : List Scorer :=
  scorers matchElement.awayPlayerElements

/-- A container with two form markers and two scorer fragments on the home
side, one form marker and one scorer fragment on the away side. -/
def withFormAndScorers : MatchElement :=
  { container "7" (some "/en/football/game/lions-tigers") with
    homeFormElements := [["bullet", "color--green"], ["bullet", "color--red"]]
    awayFormElements := [["bullet", "color--yellow"]]
    homePlayerElements := [⟨some "Kane", some "45\x27"⟩, ⟨some "Saka", none⟩]
    awayPlayerElements := [⟨some " Salah ", some "60\x27"⟩] }

/-! ## The rendered detail page -/

/-- A `.stat__row`: the `textContent` of `.stat__title` and of the first and
last `.stat__score`. -/
structure StatElement where
  nameElement : Option String
  homeValueElement : Option String
  awayValueElement : Option String
deriving DecidableEq, Repr

/-- A `.lineup-player`: the `textContent` of `.lineup-player-name` and of
`.lineup-player-number`. -/
structure LineupElement where
  nameElement : Option String
  numberElement : Option String
deriving DecidableEq, Repr

/-- A `.b-odds__row`: the `alt` of `.b-odds__img img` (absent when there is no
such image or no such attribute) and the `textContent` of `.odd-1`, `.odd-2`
and `.odd-3`. -/
structure OddsElement where
  bookmakerElement : Option String
  homeOddElement : Option String
  drawOddElement : Option String
  awayOddElement : Option String
deriving DecidableEq, Repr

/-- A match page, as the answers to the queries of the page evaluation of
`scrapeMatchDetails`; an absent element is `none`, element answers are given
by their `textContent` (the status and the bullets with their `classList`). -/
structure DetailDocument where
  homeTeamElement : Option String
  awayTeamElement : Option String
  homeScoreElement : Option String
  awayScoreElement : Option String
  timeElement : Option Element
  /-- The `textContent` of each `.match-info .row .text`. -/
  matchInfoElements : List String
  roundElement : Option String
  venueElement : Option String
  homeFormElements : List (List String)
  awayFormElements : List (List String)
  homePlayerElements : List PlayerElement
  awayPlayerElements : List PlayerElement
  statElements : List StatElement
  homeLineupElements : List LineupElement
  awayLineupElements : List LineupElement
  oddsElements : List OddsElement
deriving DecidableEq, Repr

/-- The `matchStatus` of lines 444-446. -/
def detailStatus (timeElement : Option Element) : String :=
  match timeElement with
  | some e =>
    if e.classList.contains "color--blue" then "HalfTime"
    else if e.classList.contains "color--red" then "Live"
    else if e.classList.contains "color--green" then "Finished"
    else "Unknown"
  | none => "Unknown"

/-- One loop of lines 484-499 or 501-516: each `.player` fragment with a
player name and an event time pushes a goal of `team` to `events`. -/
def pushGoals (team : String) (events : List MatchEvent) (playerElements : List PlayerElement) :
    List MatchEvent :=
  playerElements.foldl
    (fun events playerElement =>
      let player := textOr playerElement.nameElement ""
      let eventTime := textOr playerElement.timeElement ""
      if player ≠ "" ∧ eventTime ≠ "" then events ++ [⟨eventTime, "goal", player, team⟩]
      else events)
    events

/-- The rows kept in `stats` (lines 519-538). -/
def statistics (statElements : List StatElement) : List Statistic :=
  statElements.filterMap fun statElement =>
    let statName := textOr statElement.nameElement ""
    if statName ≠ "" then
      some ⟨statName, textOr statElement.homeValueElement "0",
        textOr statElement.awayValueElement "0"⟩
    else none

/-- The players kept in `homeLineup` / `awayLineup` (lines 548-576). -/
def lineup (lineupElements : List LineupElement) : List LineupPlayer :=
  lineupElements.filterMap fun playerElement =>
    let playerName := textOr playerElement.nameElement ""
    if playerName ≠ "" then some ⟨playerName, textOr playerElement.numberElement ""⟩ else none

/-- The rows kept in `odds` (lines 579-603). -/
def oddsOf (oddsElements : List OddsElement) : List Odds :=
  oddsElements.filterMap fun oddElement =>
    let bookmaker := oddElement.bookmakerElement.getD ""
    if bookmaker ≠ "" then
      some ⟨bookmaker, textOr oddElement.homeOddElement "", textOr oddElement.drawOddElement "",
        textOr oddElement.awayOddElement ""⟩
    else none

/-- The object returned by the `try` branch of the detail page evaluation
(lines 431-638); the evaluation returns `DetailPayload.parsed` of it when
nothing throws. -/
def evaluateDetails (document : DetailDocument) : MatchDetail :=
  let homeTeam := textOr document.homeTeamElement ""
  let awayTeam := textOr document.awayTeamElement ""
  let homeScore := textOr document.homeScoreElement "0"
  let awayScore := textOr document.awayScoreElement "0"
  let events := pushGoals awayTeam (pushGoals homeTeam [] document.homePlayerElements)
    document.awayPlayerElements
  { matchInfo :=
      { date := textOr document.matchInfoElements[0]? ""
        scheduledTime := textOr document.matchInfoElements[1]? ""
        round := textOr document.roundElement "" }
    status := detailStatus document.timeElement
    time := textOr (document.timeElement.map (·.textContent)) ""
    home := { name := homeTeam, score := homeScore, form := document.homeFormElements.map formLetter }
    away := { name := awayTeam, score := awayScore, form := document.awayFormElements.map formLetter }
    venue := textOr document.venueElement ""
    scoreFull := homeScore ++ "-" ++ awayScore
    statistics := statistics document.statElements
    events := events
    lineupsHome := lineup document.homeLineupElements
    lineupsAway := lineup document.awayLineupElements
    odds := oddsOf document.oddsElements }

/-- A scorer fragment has a name and a time: the trimmed texts of its `a`
and of its `span span:last-child` are both present and not empty. -/
def hasNameAndTime (playerElement : PlayerElement) : Bool :=
  decide (textOr playerElement.nameElement "" ≠ "") &&
    decide (textOr playerElement.timeElement "" ≠ "")

/-- The goal of `team` read from a scorer fragment. -/
def goalOf (team : String) (playerElement : PlayerElement) : MatchEvent :=
  { time := textOr playerElement.timeElement "", type := "goal"
    player := textOr playerElement.nameElement "", team := team }

/-- The events list in the words of the specification: the home-side scorer
fragments that have a name and a time, in document order, as goals of the
home team, followed by the away-side ones as goals of the away team. -/
def eventsSpec (document : DetailDocument) : List MatchEvent :=
  (document.homePlayerElements.filter hasNameAndTime).map
      (goalOf (textOr document.homeTeamElement ""))
    ++ (document.awayPlayerElements.filter hasNameAndTime).map
      (goalOf (textOr document.awayTeamElement ""))

/-- A match page with a late home goal and an early away goal. -/
def lateHomeGoal : DetailDocument :=
  { homeTeamElement := some "Lions", awayTeamElement := some "Tigers"
    homeScoreElement := some "1", awayScoreElement := some "1"
    timeElement := some ⟨"FT", ["status", "color--green"]⟩
    matchInfoElements := [], roundElement := none, venueElement := none
    homeFormElements := [], awayFormElements := []
    homePlayerElements := [⟨some "Kane", some "80\x27"⟩, ⟨some "Saka", none⟩]
    awayPlayerElements := [⟨some " Salah ", some "10\x27"⟩]
    statElements := [], homeLineupElements := [], awayLineupElements := []
    oddsElements := [] }

/-! ## Lemmas on the cache and the handlers -/

theorem DetailsCache.get_set_self (c : DetailsCache) (key : String) (value : DetailsEntry) :
    (c.set key value).get key = some value := by
  induction c with
  | nil => simp [DetailsCache.set, DetailsCache.get]
  | cons kv rest ih =>
    obtain ⟨k, v⟩ := kv
    by_cases h : k = key
    · simp [DetailsCache.set, DetailsCache.get, h]
    · simp [DetailsCache.set, DetailsCache.get, h, ih]

/-! ### The handlers, case by case -/

theorem getDetails_fresh {s : State} {matchId : String} {w : World} {data : DetailResult}
    (hid : matchId ≠ "") (hfresh : freshDetails s matchId w.now = some data) :
    getDetails s matchId w = ⟨s, .details data, [], 0⟩ := by
  simp [getDetails, hid, hfresh]

theorem getDetails_cached_link {s : State} {matchId : String} {w : World} {matchLink : String}
    (hid : matchId ≠ "") (hfresh : freshDetails s matchId w.now = none)
    (hlink : cachedLink s matchId = some matchLink) :
    getDetails s matchId w = scrapeAndStore s matchId matchLink w [] 0 := by
  simp [getDetails, hid, hfresh, hlink]

theorem getDetails_list_error {s : State} {matchId : String} {w : World} {message : String}
    (hid : matchId ≠ "") (hfresh : freshDetails s matchId w.now = none)
    (hlink : cachedLink s matchId = none) (hlist : scrapeMatches w = .error message) :
    getDetails s matchId w =
      ⟨s, .error 500 "Failed to fetch match details" (some message), [.list], 0⟩ := by
  simp [getDetails, hid, hfresh, hlink, hlist]

theorem getDetails_new_link {s : State} {matchId : String} {w : World}
    {r : Scraped (List MatchRecord)} {matchLink : String}
    (hid : matchId ≠ "") (hfresh : freshDetails s matchId w.now = none)
    (hlink : cachedLink s matchId = none) (hlist : scrapeMatches w = .ok r)
    (hnew : findLink r.value matchId = some matchLink) :
    getDetails s matchId w = scrapeAndStore s matchId matchLink w [.list] r.ms := by
  simp [getDetails, hid, hfresh, hlink, hlist, hnew]

theorem getDetails_not_found {s : State} {matchId : String} {w : World}
    {r : Scraped (List MatchRecord)}
    (hid : matchId ≠ "") (hfresh : freshDetails s matchId w.now = none)
    (hlink : cachedLink s matchId = none) (hlist : scrapeMatches w = .ok r)
    (hnew : findLink r.value matchId = none) :
    getDetails s matchId w = ⟨s, .error 404 "Match not found" none, [.list], r.ms⟩ := by
  simp [getDetails, hid, hfresh, hlink, hlist, hnew]

theorem scrapeAndStore_error {s : State} {matchId matchLink : String} {w : World}
    {scrapes : List ScrapeCall} {elapsed : Nat} {message : String}
    (hpage : w.detailPage matchLink = .error message) :
    scrapeAndStore s matchId matchLink w scrapes elapsed =
      ⟨s, .error 500 "Failed to fetch match details" (some message),
        scrapes ++ [.details matchLink], elapsed⟩ := by
  simp [scrapeAndStore, scrapeMatchDetails, hpage]

theorem scrapeAndStore_ok {s : State} {matchId matchLink : String} {w : World}
    {scrapes : List ScrapeCall} {elapsed : Nat} {page : Rendered DetailPayload}
    (hpage : w.detailPage matchLink = .ok page) :
    scrapeAndStore s matchId matchLink w scrapes elapsed =
      let data : DetailResult :=
        ⟨w.toISOString (w.now + (elapsed : Nat) + (page.loadMs + SETTLE_DELAY : Nat)),
          matchLink, page.document⟩
      ⟨{ s with matchDetailsCache := s.matchDetailsCache.set matchId ⟨w.now, data⟩ },
        .details data, scrapes ++ [.details matchLink], elapsed + (page.loadMs + SETTLE_DELAY)⟩ := by
  simp [scrapeAndStore, scrapeMatchDetails, hpage]

theorem scrapeAndStore_list (s : State) (matchId matchLink : String) (w : World)
    (scrapes : List ScrapeCall) (elapsed : Nat) :
    (scrapeAndStore s matchId matchLink w scrapes elapsed).state.cachedData = s.cachedData ∧
    (scrapeAndStore s matchId matchLink w scrapes elapsed).state.lastFetchTime = s.lastFetchTime := by
  cases hpage : w.detailPage matchLink with
  | error message => simp [scrapeAndStore_error hpage]
  | ok page => simp [scrapeAndStore_ok hpage]

theorem getDetails_list (s : State) (matchId : String) (w : World) :
    (getDetails s matchId w).state.cachedData = s.cachedData ∧
    (getDetails s matchId w).state.lastFetchTime = s.lastFetchTime := by
  by_cases hid : matchId = ""
  · simp [getDetails, hid]
  cases hfresh : freshDetails s matchId w.now with
  | some data => simp [getDetails_fresh hid hfresh]
  | none =>
    cases hlink : cachedLink s matchId with
    | some matchLink =>
      rw [getDetails_cached_link hid hfresh hlink]; exact scrapeAndStore_list ..
    | none =>
      cases hlist : scrapeMatches w with
      | error message => simp [getDetails_list_error hid hfresh hlink hlist]
      | ok r =>
        cases hnew : findLink r.value matchId with
        | some matchLink =>
          rw [getDetails_new_link hid hfresh hlink hlist hnew]; exact scrapeAndStore_list ..
        | none => simp [getDetails_not_found hid hfresh hlink hlist hnew]

theorem getMatches_cached {s : State} {w : World} {data : MatchesData}
    (hfresh : freshMatches s w.now = some data) :
    getMatches s false w = ⟨s, .list data, [], 0⟩ := by
  simp [getMatches, hfresh]

theorem getMatches_error {s : State} {forceRefresh : Bool} {w : World} {message : String}
    (hmiss : forceRefresh = true ∨ freshMatches s w.now = none)
    (hlist : scrapeMatches w = .error message) :
    getMatches s forceRefresh w =
      ⟨s, .error 500 "Failed to fetch matches data" (some message), [.list], 0⟩ := by
  rcases hmiss with h | h <;> simp [getMatches, h, hlist]

theorem getMatches_fetch {s : State} {forceRefresh : Bool} {w : World}
    {r : Scraped (List MatchRecord)}
    (hmiss : forceRefresh = true ∨ freshMatches s w.now = none)
    (hlist : scrapeMatches w = .ok r) :
    getMatches s forceRefresh w =
      let data : MatchesData :=
        ⟨w.toISOString (w.now + (r.ms : Nat)), "azscore.ng/live", r.value⟩
      ⟨{ s with cachedData := some data, lastFetchTime := some w.now },
        .list data, [.list], r.ms⟩ := by
  rcases hmiss with h | h <;> simp [getMatches, h, hlist]

/-- Either the cache answers, or the scraper is called. -/
theorem getMatches_cases (s : State) (forceRefresh : Bool) (w : World) :
    (forceRefresh = false ∧ ∃ data, freshMatches s w.now = some data) ∨
    (forceRefresh = true ∨ freshMatches s w.now = none) := by
  cases forceRefresh with
  | true => exact Or.inr (Or.inl rfl)
  | false =>
    cases h : freshMatches s w.now with
    | none => exact Or.inr (Or.inr rfl)
    | some data => exact Or.inl ⟨rfl, data, rfl⟩

theorem freshMatches_of_entry {s : State} {data : MatchesData} {t now : Int}
    (hdata : s.cachedData = some data) (htime : s.lastFetchTime = some t)
    (ht : t ≠ 0) (hnow : now - t < 6000) : freshMatches s now = some data := by
  simp [freshMatches, hdata, htime, ht, CACHE_DURATION, hnow]

theorem handle_keeps_list {s : State} {data : MatchesData} {t : Int} (q : Request × World)
    (hdata : s.cachedData = some data) (htime : s.lastFetchTime = some t)
    (ht : t ≠ 0) (hq : keepsList t q = true) :
    (handle s q.1 q.2).state.cachedData = some data ∧
    (handle s q.1 q.2).state.lastFetchTime = some t := by
  obtain ⟨req, w⟩ := q
  cases req with
  | details matchId =>
    simp only [handle]
    rw [(getDetails_list s matchId w).1, (getDetails_list s matchId w).2]
    exact ⟨hdata, htime⟩
  | list forceRefresh =>
    simp only [keepsList, Bool.and_eq_true, Bool.not_eq_true', decide_eq_true_eq] at hq
    obtain ⟨hf, hlt⟩ := hq
    subst hf
    simp only [handle]
    rw [getMatches_cached (freshMatches_of_entry hdata htime ht hlt)]
    exact ⟨hdata, htime⟩

theorem serve_keeps_list (between : List (Request × World)) :
    ∀ (s : State) (data : MatchesData) (t : Int),
      s.cachedData = some data → s.lastFetchTime = some t → t ≠ 0 →
      (∀ q ∈ between, keepsList t q = true) →
      (serve s between).cachedData = some data ∧ (serve s between).lastFetchTime = some t := by
  induction between with
  | nil => intro s data t hdata htime _ _; exact ⟨hdata, htime⟩
  | cons q rest ih =>
    intro s data t hdata htime ht hall
    obtain ⟨h1, h2⟩ := handle_keeps_list q hdata htime ht (hall q (List.mem_cons_self _ _))
    exact ih _ _ _ h1 h2 ht (fun q' hq' => hall q' (List.mem_cons_of_mem _ hq'))

theorem scrapeAndStore_scrapes (s : State) (matchId matchLink : String) (w : World)
    (scrapes : List ScrapeCall) (elapsed : Nat) :
    (scrapeAndStore s matchId matchLink w scrapes elapsed).scrapes
      = scrapes ++ [.details matchLink] := by
  cases hpage : w.detailPage matchLink with
  | error message => simp [scrapeAndStore_error hpage]
  | ok page => simp [scrapeAndStore_ok hpage]

/-- The ways `getDetails` ends, for an id that is not empty. -/
theorem getDetails_cases (s : State) (matchId : String) (w : World) (hid : matchId ≠ "") :
    (∃ data, freshDetails s matchId w.now = some data ∧
      getDetails s matchId w = ⟨s, .details data, [], 0⟩) ∨
    (∃ matchLink, freshDetails s matchId w.now = none ∧ cachedLink s matchId = some matchLink ∧
      getDetails s matchId w = scrapeAndStore s matchId matchLink w [] 0) ∨
    (∃ message, freshDetails s matchId w.now = none ∧ cachedLink s matchId = none ∧
      scrapeMatches w = .error message ∧
      getDetails s matchId w =
        ⟨s, .error 500 "Failed to fetch match details" (some message), [.list], 0⟩) ∨
    (∃ r matchLink, freshDetails s matchId w.now = none ∧ cachedLink s matchId = none ∧
      scrapeMatches w = .ok r ∧ findLink r.value matchId = some matchLink ∧
      getDetails s matchId w = scrapeAndStore s matchId matchLink w [.list] r.ms) ∨
    (∃ r, freshDetails s matchId w.now = none ∧ cachedLink s matchId = none ∧
      scrapeMatches w = .ok r ∧ findLink r.value matchId = none ∧
      getDetails s matchId w = ⟨s, .error 404 "Match not found" none, [.list], r.ms⟩) := by
  cases hfresh : freshDetails s matchId w.now with
  | some data => exact Or.inl ⟨data, rfl, getDetails_fresh hid hfresh⟩
  | none =>
    cases hlink : cachedLink s matchId with
    | some matchLink =>
      exact Or.inr (Or.inl ⟨matchLink, rfl, rfl, getDetails_cached_link hid hfresh hlink⟩)
    | none =>
      cases hlist : scrapeMatches w with
      | error message =>
        exact Or.inr (Or.inr (Or.inl
          ⟨message, rfl, rfl, rfl, getDetails_list_error hid hfresh hlink hlist⟩))
      | ok r =>
        cases hnew : findLink r.value matchId with
        | some matchLink =>
          exact Or.inr (Or.inr (Or.inr (Or.inl
            ⟨r, matchLink, rfl, rfl, rfl, hnew, getDetails_new_link hid hfresh hlink hlist hnew⟩)))
        | none =>
          exact Or.inr (Or.inr (Or.inr (Or.inr
            ⟨r, rfl, rfl, rfl, hnew, getDetails_not_found hid hfresh hlink hlist hnew⟩)))

/-- A detail scrape in the log of `getDetails` is the call of `scrapeAndStore`. -/
theorem getDetails_of_details_mem {s : State} {matchId : String} {w : World} {link : String}
    (hmem : ScrapeCall.details link ∈ (getDetails s matchId w).scrapes) :
    matchId ≠ "" ∧ ∃ scrapes elapsed,
      getDetails s matchId w = scrapeAndStore s matchId link w scrapes elapsed := by
  by_cases hid : matchId = ""
  · simp [getDetails, hid] at hmem
  refine ⟨hid, ?_⟩
  rcases getDetails_cases s matchId w hid with
    ⟨data, _, h⟩ | ⟨l, _, _, h⟩ | ⟨message, _, _, _, h⟩ | ⟨r, l, _, _, _, _, h⟩ | ⟨r, _, _, _, _, h⟩
  · rw [h] at hmem; simp at hmem
  · rw [h, scrapeAndStore_scrapes] at hmem
    simp at hmem
    subst hmem
    exact ⟨_, _, h⟩
  · rw [h] at hmem; simp at hmem
  · rw [h, scrapeAndStore_scrapes] at hmem
    simp at hmem
    subst hmem
    exact ⟨_, _, h⟩
  · rw [h] at hmem; simp at hmem

theorem DetailsCache.keys_set (c : DetailsCache) (key : String) (value : DetailsEntry) :
    (c.set key value).map Prod.fst =
      if key ∈ c.map Prod.fst then c.map Prod.fst else c.map Prod.fst ++ [key] := by
  induction c with
  | nil => simp [DetailsCache.set]
  | cons kv rest ih =>
    obtain ⟨k, v⟩ := kv
    by_cases h : k = key
    · simp [DetailsCache.set, h]
    · have h' : ¬ key = k := fun e => h e.symm
      by_cases hm : key ∈ rest.map Prod.fst
      · simp only [DetailsCache.set, h, if_false, List.map_cons, ih, hm, if_true,
          List.mem_cons, or_true]
      · simp only [DetailsCache.set, h, if_false, List.map_cons, ih, hm, List.mem_cons, h',
          or_self, List.cons_append]

theorem DetailsCache.wellFormed_set (c : DetailsCache) (key : String) (value : DetailsEntry)
    (h : c.WellFormed) : (c.set key value).WellFormed := by
  unfold DetailsCache.WellFormed at *
  rw [DetailsCache.keys_set]
  split
  · exact h
  · next hm =>
    rw [List.nodup_append]
    refine ⟨h, List.nodup_singleton _, ?_⟩
    intro a ha hb
    simp at hb
    subst hb
    exact hm ha

theorem DetailsCache.count_set (c : DetailsCache) (key : String) (value : DetailsEntry)
    (h : c.WellFormed) : ((c.set key value).map Prod.fst).count key = 1 :=
  List.count_eq_one_of_mem (DetailsCache.wellFormed_set c key value h) (by
    rw [DetailsCache.keys_set]
    split
    · assumption
    · simp)

theorem scrapeAndStore_details {s : State} {matchId matchLink : String} {w : World}
    {scrapes : List ScrapeCall} {elapsed : Nat} {data : DetailResult}
    (hok : (scrapeAndStore s matchId matchLink w scrapes elapsed).response = .details data) :
    ∃ page, w.detailPage matchLink = .ok page ∧
      data.source = matchLink ∧ data.details = page.document ∧
      scrapeAndStore s matchId matchLink w scrapes elapsed =
        ⟨{ s with matchDetailsCache := s.matchDetailsCache.set matchId ⟨w.now, data⟩ },
          .details data, scrapes ++ [.details matchLink],
          elapsed + (page.loadMs + SETTLE_DELAY)⟩ := by
  cases hpage : w.detailPage matchLink with
  | error message => rw [scrapeAndStore_error hpage] at hok; cases hok
  | ok page =>
    rw [scrapeAndStore_ok hpage] at hok ⊢
    simp only [Response.details.injEq] at hok
    subst hok
    exact ⟨page, rfl, rfl, rfl, rfl⟩

/-- A successful `getDetails` that scraped ended in `scrapeAndStore`. -/
theorem getDetails_scraped {s : State} {matchId : String} {w : World} {data : DetailResult}
    (hok : (getDetails s matchId w).response = .details data)
    (hscr : (getDetails s matchId w).scrapes ≠ []) :
    matchId ≠ "" ∧ ∃ matchLink scrapes elapsed,
      getDetails s matchId w = scrapeAndStore s matchId matchLink w scrapes elapsed := by
  by_cases hid : matchId = ""
  · simp [getDetails, hid] at hscr
  refine ⟨hid, ?_⟩
  rcases getDetails_cases s matchId w hid with
    ⟨d, _, h⟩ | ⟨l, _, _, h⟩ | ⟨message, _, _, _, h⟩ | ⟨r, l, _, _, _, _, h⟩ | ⟨r, _, _, _, _, h⟩
  · rw [h] at hscr; exact absurd rfl hscr
  · exact ⟨_, _, _, h⟩
  · rw [h] at hok; cases hok
  · exact ⟨_, _, _, h⟩
  · rw [h] at hok; cases hok

theorem raises_list_of_ok {w : World} {r : Scraped (List MatchRecord)}
    (hlist : scrapeMatches w = .ok r) : raises w .list = false := by
  unfold scrapeMatches at hlist
  unfold raises
  cases hpage : w.listPage with
  | error message => rw [hpage] at hlist; cases hlist
  | ok page => rfl

theorem raises_details_of_ok {w : World} {matchUrl : String} {page : Rendered DetailPayload}
    (hpage : w.detailPage matchUrl = .ok page) : raises w (.details matchUrl) = false := by
  simp [raises, hpage]

theorem scrapeAndStore_failure {s : State} {matchId matchLink : String} {w : World}
    {scrapes : List ScrapeCall} {elapsed : Nat}
    (hprior : ∀ c ∈ scrapes, raises w c = false)
    (hraise : ∃ c ∈ (scrapeAndStore s matchId matchLink w scrapes elapsed).scrapes,
      raises w c = true) :
    (∃ error message, (scrapeAndStore s matchId matchLink w scrapes elapsed).response
        = .error 500 error (some message)) ∧
    (scrapeAndStore s matchId matchLink w scrapes elapsed).state = s := by
  cases hpage : w.detailPage matchLink with
  | error message => rw [scrapeAndStore_error hpage]; exact ⟨⟨_, _, rfl⟩, rfl⟩
  | ok page =>
    obtain ⟨c, hc, hr⟩ := hraise
    rw [scrapeAndStore_scrapes] at hc
    rcases List.mem_append.mp hc with hc | hc
    · rw [hprior c hc] at hr; cases hr
    · simp only [List.mem_singleton] at hc
      subst hc
      rw [raises_details_of_ok hpage] at hr; cases hr

theorem dropWhile_eq_self_of_head {p : Char → Bool} (cs : List Char)
    (h : ∀ c, cs.head? = some c → p c = false) : cs.dropWhile p = cs := by
  cases cs with
  | nil => rfl
  | cons c rest => simp [List.dropWhile, h c rfl]

/-- A text that neither starts nor ends with white space is its own trim. -/
theorem trim_eq_self (text : String)
    (hhead : ∀ c, text.data.head? = some c → isTrimChar c = false)
    (hlast : ∀ c, text.data.getLast? = some c → isTrimChar c = false) :
    trim text = text := by
  unfold trim trimChars
  rw [dropWhile_eq_self_of_head _ hhead,
    dropWhile_eq_self_of_head _ (by simpa using hlast), List.reverse_reverse]

theorem includesChar_push (t : String) (c : Char) : includesChar (t.push c) c = true := by
  simp [includesChar]

theorem endsWithChar_push (t : String) (c : Char) : endsWithChar (t.push c) c = true := by
  simp [endsWithChar]

theorem endsWithChar_includes {t : String} {c : Char} (h : endsWithChar t c = true) :
    includesChar t c = true := by
  simp only [endsWithChar, beq_iff_eq] at h
  have hmem := List.mem_of_getLast?_eq_some h
  simp [includesChar, hmem]

theorem extractMatch_time (m : MatchElement) :
    (extractMatch m).game.time = (timeAndStatus m.gameInfoElement).1 := rfl

theorem extractMatch_status (m : MatchElement) :
    (extractMatch m).game.status = (timeAndStatus m.gameInfoElement).2 := rfl

theorem timeAndStatus_indicator {gameInfo : GameInfo} {e : Element}
    (he : gameInfo.liveTimeElement = some e) (htext : trim e.textContent ≠ "") :
    timeAndStatus (some gameInfo) =
      if e.classList.contains "color--blue" then (trim e.textContent, "HalfTime")
      else if e.classList.contains "color--red" then
        (if !includesChar (trim e.textContent) minuteMark then
            (trim e.textContent).push minuteMark
          else trim e.textContent, "Live")
      else if e.classList.contains "color--green" then (trim e.textContent, "Finished")
      else (trim e.textContent, "Unknown") := by
  simp [timeAndStatus, he, htext]

theorem timeAndStatus_no_indicator (gameInfoElement : Option GameInfo)
    (hno : gameInfoElement.bind (·.liveTimeElement) = none) :
    timeAndStatus gameInfoElement =
      (textOr (gameInfoElement.bind (·.scheduledTimeElement)) "TBD", "Scheduled") := by
  simp [timeAndStatus, hno]

theorem timeAndStatus_empty_indicator {gameInfo : GameInfo} {e : Element}
    (he : gameInfo.liveTimeElement = some e) (htext : trim e.textContent = "") :
    timeAndStatus (some gameInfo) =
      (textOr gameInfo.scheduledTimeElement "TBD", "Scheduled") := by
  simp [timeAndStatus, he, htext]

/-- A record has status Live only through the red branch, which leaves a
minute mark in the time. -/
theorem timeAndStatus_live_includes (gameInfoElement : Option GameInfo)
    (hlive : (timeAndStatus gameInfoElement).2 = "Live") :
    includesChar (timeAndStatus gameInfoElement).1 minuteMark = true := by
  cases gameInfoElement with
  | none =>
    rw [timeAndStatus_no_indicator none rfl] at hlive
    simp at hlive
  | some gameInfo =>
    cases he : gameInfo.liveTimeElement with
    | none =>
      rw [timeAndStatus_no_indicator (some gameInfo) (by simp [he])] at hlive
      simp at hlive
    | some e =>
      by_cases htext : trim e.textContent = ""
      · rw [timeAndStatus_empty_indicator he htext] at hlive
        simp at hlive
      · rw [timeAndStatus_indicator he htext] at hlive ⊢
        by_cases hb : e.classList.contains "color--blue" = true
        · rw [if_pos hb] at hlive; simp at hlive
        · rw [if_neg hb] at hlive ⊢
          by_cases hr : e.classList.contains "color--red" = true
          · rw [if_pos hr]
            by_cases hi : includesChar (trim e.textContent) minuteMark = true
            · simp [hi]
            · simp [hi, includesChar_push]
          · rw [if_neg hr] at hlive
            by_cases hgr : e.classList.contains "color--green" = true
            · rw [if_pos hgr] at hlive; simp at hlive
            · rw [if_neg hgr] at hlive; simp at hlive

theorem findLink_cons (m : MatchRecord) (rest : List MatchRecord) (matchId : String) :
    findLink (m :: rest) matchId =
      if m.game.id = matchId then (if m.game.link ≠ "" then some m.game.link else none)
      else findLink rest matchId := by
  by_cases h : m.game.id = matchId
  · have hb : (m.game.id == matchId) = true := by simpa using h
    simp [findLink, List.find?_cons, hb, h]
  · have hb : (m.game.id == matchId) = false := by simpa using h
    simp [findLink, List.find?_cons, hb, h]

/-- When the ids of a list are pairwise distinct, `findLink` finds the link
of any record with this id and a link that is not empty. -/
theorem findLink_eq_some_iff_of_nodup (matchesData : List MatchRecord) (matchId link : String)
    (hids : (matchesData.map fun m => m.game.id).Nodup) :
    findLink matchesData matchId = some link ↔
      link ≠ "" ∧ ∃ m ∈ matchesData, m.game.id = matchId ∧ m.game.link = link := by
  induction matchesData with
  | nil => simp [findLink]
  | cons m rest ih =>
    rw [List.map_cons, List.nodup_cons] at hids
    rw [findLink_cons]
    by_cases h : m.game.id = matchId
    · have hrest : ∀ m' ∈ rest, m'.game.id ≠ matchId := by
        intro m' hm' he
        exact hids.1 (List.mem_map.mpr ⟨m', hm', by rw [he, h]⟩)
      rw [if_pos h]
      constructor
      · intro hl
        by_cases hlink : m.game.link = ""
        · simp [hlink] at hl
        · simp [hlink] at hl
          exact ⟨hl ▸ hlink, m, List.mem_cons_self _ _, h, hl⟩
      · rintro ⟨hne, m', hm', hid', hl'⟩
        rcases List.mem_cons.mp hm' with rfl | hm'
        · simp [hl', hne]
        · exact absurd hid' (hrest m' hm')
    · rw [if_neg h, ih hids.2]
      constructor
      · rintro ⟨hne, m', hm', hid', hl'⟩
        exact ⟨hne, m', List.mem_cons_of_mem _ hm', hid', hl'⟩
      · rintro ⟨hne, m', hm', hid', hl'⟩
        rcases List.mem_cons.mp hm' with rfl | hm'
        · exact absurd hid' h
        · exact ⟨hne, m', hm', hid', hl'⟩

theorem getDetails_wellFormed (s : State) (matchId : String) (w : World)
    (h : s.matchDetailsCache.WellFormed) :
    (getDetails s matchId w).state.matchDetailsCache.WellFormed := by
  by_cases hid : matchId = ""
  · simpa [getDetails, hid] using h
  have hstore : ∀ (l : String) (scrapes : List ScrapeCall) (elapsed : Nat),
      (scrapeAndStore s matchId l w scrapes elapsed).state.matchDetailsCache.WellFormed := by
    intro l scrapes elapsed
    cases hpage : w.detailPage l with
    | error message => rw [scrapeAndStore_error hpage]; exact h
    | ok page => rw [scrapeAndStore_ok hpage]; exact DetailsCache.wellFormed_set _ _ _ h
  rcases getDetails_cases s matchId w hid with
    ⟨d, _, e⟩ | ⟨l, _, _, e⟩ | ⟨message, _, _, _, e⟩ | ⟨r, l, _, _, _, _, e⟩ | ⟨r, _, _, _, _, e⟩
  · rw [e]; exact h
  · rw [e]; exact hstore ..
  · rw [e]; exact h
  · rw [e]; exact hstore ..
  · rw [e]; exact h

theorem getMatches_details_cache (s : State) (forceRefresh : Bool) (w : World) :
    (getMatches s forceRefresh w).state.matchDetailsCache = s.matchDetailsCache := by
  rcases getMatches_cases s forceRefresh w with ⟨hf, data, hfresh⟩ | hmiss
  · subst hf; rw [getMatches_cached hfresh]
  · cases hlist : scrapeMatches w with
    | error message => rw [getMatches_error hmiss hlist]
    | ok r => rw [getMatches_fetch hmiss hlist]

/-- Every state reached from start-up has a well-formed detail cache. -/
theorem serve_wellFormed (requests : List (Request × World)) :
    ∀ s : State, s.matchDetailsCache.WellFormed →
      (serve s requests).matchDetailsCache.WellFormed := by
  induction requests with
  | nil => intro s h; exact h
  | cons q rest ih =>
    intro s h
    obtain ⟨req, w⟩ := q
    apply ih
    cases req with
    | list forceRefresh =>
      simp only [handle]; rw [getMatches_details_cache]; exact h
    | details matchId => exact getDetails_wellFormed s matchId w h

/-! ## Lemmas on the link rewrite and the detail events -/

theorem replaceFirstChars_here (pat rep : List Char) {c : Char} {cs : List Char}
    (h : pat.isPrefixOf (c :: cs) = true) :
    c :: cs = pat ++ (c :: cs).drop pat.length ∧
    replaceFirstChars pat rep (c :: cs) = rep ++ (c :: cs).drop pat.length := by
  refine ⟨?_, by simp [replaceFirstChars, h]⟩
  have hp : pat <+: c :: cs := List.isPrefixOf_iff_prefix.mp h
  exact (List.prefix_iff_eq_append.mp hp).symm

theorem replaceFirstChars_skip {pat rep : List Char} {c : Char} {cs : List Char}
    (h : ¬ pat.isPrefixOf (c :: cs) = true) :
    replaceFirstChars pat rep (c :: cs) = c :: replaceFirstChars pat rep cs := by
  simp [replaceFirstChars, h]

/-- A suffix `q` of `Q` that starts the rewritten text starts the text itself, when
this holds at the place of the replacement. -/
theorem prefix_replaceFirstChars (pat rep Q : List Char) (hpat : pat ≠ [])
    (H : ∀ q, q <:+ Q → ∀ a, q <+: rep ++ a → q <+: pat ++ a) :
    ∀ s q, q <:+ Q → q <+: replaceFirstChars pat rep s → q <+: s := by
  intro s
  induction s with
  | nil => intro q _ hq; simpa [replaceFirstChars, hpat] using hq
  | cons c cs ih =>
    intro q hQ hq
    by_cases h : pat.isPrefixOf (c :: cs) = true
    · obtain ⟨hs, hr⟩ := replaceFirstChars_here pat rep h
      rw [hr] at hq
      rw [hs]
      exact H q hQ _ hq
    · rw [replaceFirstChars_skip h] at hq
      cases q with
      | nil => exact List.nil_prefix
      | cons d q' =>
        rw [List.cons_prefix_cons] at hq ⊢
        exact ⟨hq.1, ih q' ((List.suffix_cons d q').trans hQ) hq.2⟩

theorem countOccurrences_cons (Q : List Char) (c : Char) (cs : List Char) :
    countOccurrences Q (c :: cs)
      = (if Q.isPrefixOf (c :: cs) then 1 else 0) + countOccurrences Q cs := rfl

/-- The rewrite brings no occurrence of `Q` into a text that has none, when this
holds at the place of the replacement. -/
theorem countOccurrences_replaceFirstChars_zero (pat rep Q : List Char) (hpat : pat ≠ [])
    (H : ∀ q, q <:+ Q → ∀ a, q <+: rep ++ a → q <+: pat ++ a)
    (H0 : ∀ a, countOccurrences Q (pat ++ a) = 0 → countOccurrences Q (rep ++ a) = 0) :
    ∀ s, countOccurrences Q s = 0 → countOccurrences Q (replaceFirstChars pat rep s) = 0 := by
  intro s
  induction s with
  | nil => intro h; simpa [replaceFirstChars, hpat] using h
  | cons c cs ih =>
    intro hs
    by_cases h : pat.isPrefixOf (c :: cs) = true
    · obtain ⟨hsplit, hr⟩ := replaceFirstChars_here pat rep h
      rw [hr]
      rw [hsplit] at hs
      exact H0 _ hs
    · rw [replaceFirstChars_skip h]
      rw [countOccurrences_cons] at hs ⊢
      have hcs : countOccurrences Q cs = 0 := by omega
      have hnot : ¬ Q.isPrefixOf (c :: cs) = true := by
        intro hp; rw [if_pos hp] at hs; omega
      have hnot' : ¬ Q.isPrefixOf (c :: replaceFirstChars pat rep cs) = true := by
        intro hp
        apply hnot
        have := prefix_replaceFirstChars pat rep Q hpat H (c :: cs) Q (List.suffix_refl Q)
          (by rw [replaceFirstChars_skip h]; exact List.isPrefixOf_iff_prefix.mp hp)
        exact List.isPrefixOf_iff_prefix.mpr this
      rw [if_neg hnot', ih hcs]

/-- The rewrite removes the only occurrence of `pat`, when the replacement brings
none at its place. -/
theorem countOccurrences_replaceFirstChars_one (pat rep : List Char) (hpat : pat ≠ [])
    (H : ∀ q, q <:+ pat → ∀ a, q <+: rep ++ a → q <+: pat ++ a)
    (H1 : ∀ a, countOccurrences pat (pat ++ a) = 1 → countOccurrences pat (rep ++ a) = 0) :
    ∀ s, countOccurrences pat s = 1 →
      countOccurrences pat (replaceFirstChars pat rep s) = 0 := by
  intro s
  induction s with
  | nil =>
    intro h
    cases pat with
    | nil => exact absurd rfl hpat
    | cons p ps => simp [countOccurrences] at h
  | cons c cs ih =>
    intro hs
    by_cases h : pat.isPrefixOf (c :: cs) = true
    · obtain ⟨hsplit, hr⟩ := replaceFirstChars_here pat rep h
      rw [hr]
      rw [hsplit] at hs
      exact H1 _ hs
    · rw [replaceFirstChars_skip h]
      rw [countOccurrences_cons] at hs ⊢
      rw [if_neg h] at hs
      have hnot' : ¬ pat.isPrefixOf (c :: replaceFirstChars pat rep cs) = true := by
        intro hp
        apply h
        have := prefix_replaceFirstChars pat rep pat hpat H (c :: cs) pat (List.suffix_refl pat)
          (by rw [replaceFirstChars_skip h]; exact List.isPrefixOf_iff_prefix.mp hp)
        exact List.isPrefixOf_iff_prefix.mpr this
      rw [if_neg hnot', ih (by omega)]

theorem game_data : "/game/".data = ['/', 'g', 'a', 'm', 'e', '/'] := rfl

theorem stats_data : "/stats/".data = ['/', 's', 't', 'a', 't', 's', '/'] := rfl

theorem origin_data : "https://azscore.ng".data =
    ['h', 't', 't', 'p', 's', ':', '/', '/', 'a', 'z', 's', 'c', 'o', 'r', 'e', '.', 'n', 'g'] :=
  rfl

theorem game_suffix_stats (q : List Char) (hq : q <:+ "/game/".data) (a : List Char)
    (h : q <+: "/stats/".data ++ a) : q <+: "/game/".data ++ a := by
  have hm : q ∈ "/game/".data.tails := (List.mem_tails _ _).mpr hq
  rw [game_data] at hm ⊢
  rw [stats_data] at h
  simp [List.tails] at hm
  rcases hm with rfl | rfl | rfl | rfl | rfl | rfl | rfl <;> simp at h ⊢

theorem origin_suffix_stats (q : List Char) (hq : q <:+ "https://azscore.ng".data)
    (a : List Char) (h : q <+: "/stats/".data ++ a) : q <+: "/game/".data ++ a := by
  have hm : q ∈ "https://azscore.ng".data.tails := (List.mem_tails _ _).mpr hq
  rw [game_data]
  rw [origin_data] at hm
  rw [stats_data] at h
  simp [List.tails] at hm
  rcases hm with rfl | rfl | rfl | rfl | rfl | rfl | rfl | rfl | rfl | rfl | rfl | rfl | rfl |
    rfl | rfl | rfl | rfl | rfl | rfl <;> simp at h ⊢

theorem game_count_stats (a : List Char)
    (h : countOccurrences "/game/".data ("/game/".data ++ a) = 1) :
    countOccurrences "/game/".data ("/stats/".data ++ a) = 0 := by
  rw [game_data] at h ⊢
  rw [stats_data]
  simp [countOccurrences] at h ⊢
  exact h

theorem origin_count_stats (a : List Char)
    (h : countOccurrences "https://azscore.ng".data ("/game/".data ++ a) = 0) :
    countOccurrences "https://azscore.ng".data ("/stats/".data ++ a) = 0 := by
  rw [game_data, origin_data] at h
  rw [stats_data, origin_data]
  simp [countOccurrences] at h ⊢
  exact h

theorem game_count_origin_append (x : List Char) :
    countOccurrences "/game/".data ("https://azscore.ng".data ++ x)
      = countOccurrences "/game/".data x := by
  rw [game_data, origin_data]
  simp [countOccurrences]

theorem origin_count_origin_append (x : List Char) :
    countOccurrences "https://azscore.ng".data ("https://azscore.ng".data ++ x)
      = 1 + countOccurrences "https://azscore.ng".data x := by
  rw [origin_data]
  simp [countOccurrences]

theorem countOccurrences_nil {pat : List Char} (hpat : pat ≠ []) :
    countOccurrences pat [] = 0 := by
  cases pat with
  | nil => exact absurd rfl hpat
  | cons p ps => simp [countOccurrences]

/-- The replaced occurrence is the first one. -/
theorem replaceFirstChars_split (pat rep : List Char) (hpat : pat ≠ []) :
    ∀ s, 0 < countOccurrences pat s →
      ∃ b a, s = b ++ pat ++ a ∧ replaceFirstChars pat rep s = b ++ rep ++ a ∧
        ∀ b' a', s = b' ++ pat ++ a' → b.length ≤ b'.length := by
  intro s
  induction s with
  | nil => intro h; rw [countOccurrences_nil hpat] at h; omega
  | cons c cs ih =>
    intro hs
    by_cases h : pat.isPrefixOf (c :: cs) = true
    · obtain ⟨hsplit, hr⟩ := replaceFirstChars_here pat rep h
      exact ⟨[], (c :: cs).drop pat.length, by simpa using hsplit, by simpa using hr,
        fun _ _ _ => Nat.zero_le _⟩
    · rw [countOccurrences_cons, if_neg h] at hs
      obtain ⟨b, a, hcs, hr, hmin⟩ := ih (by omega)
      refine ⟨c :: b, a, by simp [hcs], ?_, ?_⟩
      · rw [replaceFirstChars_skip h, hr]; simp
      · intro b' a' hs'
        cases b' with
        | nil =>
          exfalso
          apply h
          rw [List.isPrefixOf_iff_prefix, hs']
          simp
        | cons c' b'' =>
          simp only [List.cons_append, List.cons.injEq] at hs'
          have := hmin b'' a' (by simpa using hs'.2)
          simpa using this

theorem linkOf_data {href : String} (h : 0 < occurrences href "/game/") :
    (linkOf href).data
      = "https://azscore.ng".data
          ++ replaceFirstChars "/game/".data "/stats/".data href.data := by
  have hne : href ≠ "" := by
    rintro rfl
    simp [occurrences, countOccurrences] at h
  simp [linkOf, hne, replaceFirst]

/-- A loop of pushes appends the goals of the fragments that have a name and a
time, in order. -/
theorem pushGoals_eq (team : String) (playerElements : List PlayerElement) :
    ∀ events, pushGoals team events playerElements
      = events ++ (playerElements.filter hasNameAndTime).map (goalOf team) := by
  induction playerElements with
  | nil => intro events; simp [pushGoals]
  | cons p rest ih =>
    intro events
    have hstep : pushGoals team events (p :: rest)
        = pushGoals team
            (if textOr p.nameElement "" ≠ "" ∧ textOr p.timeElement "" ≠ "" then
              events ++ [⟨textOr p.timeElement "", "goal", textOr p.nameElement "", team⟩]
            else events) rest := rfl
    rw [hstep, ih]
    by_cases h : textOr p.nameElement "" ≠ "" ∧ textOr p.timeElement "" ≠ ""
    · have hb : hasNameAndTime p = true := by simp [hasNameAndTime, h.1, h.2]
      rw [if_pos h, List.filter_cons_of_pos hb]
      simp [goalOf]
    · have hb : ¬ hasNameAndTime p = true := by
        simp only [hasNameAndTime, Bool.and_eq_true, decide_eq_true_eq]
        exact h
      rw [if_neg h, List.filter_cons_of_neg hb]

/-- The pushed object does not depend on the form markers and scorer fragments. -/
theorem extractMatch_ignores_form (m : MatchElement) :
    extractMatch m
      = extractMatch { m with homeFormElements := [], awayFormElements := []
                              homePlayerElements := [], awayPlayerElements := [] } := rfl

/-- No occurrence is counted exactly when `pat` is not a contiguous part of `s`. -/
theorem countOccurrences_eq_zero_iff (pat s : List Char) :
    countOccurrences pat s = 0 ↔ ¬ pat <:+: s := by
  induction s with
  | nil =>
    cases pat with
    | nil => simp [countOccurrences]
    | cons p ps => simp [countOccurrences]
  | cons c cs ih =>
    rw [countOccurrences_cons, List.infix_cons_iff, not_or, ← ih, ← List.isPrefixOf_iff_prefix]
    by_cases h : pat.isPrefixOf (c :: cs) = true
    · simp [h]
    · simp [h]

/-! ## The claims -/

/-- C1, amended. Freshness of the match list is counted from the fetch. When a
`getMatches` call scrapes successfully at a clock reading `w.now` other than
zero and sends `body`, a later `getMatches(false)` made at a clock reading
less than 6000 ms after `w.now` sends the same `body` and calls no scraper,
whatever details requests, and whatever `getMatches(false)` requests made
less than 6000 ms after `w.now`, were served in between. -/
theorem getMatches_fresh_after_fetch (s : State) (forceRefresh : Bool) (w : World)
    (body : MatchesData) (between : List (Request × World)) (w' : World)
    (hscrape : (getMatches s forceRefresh w).scrapes ≠ [])
    (hok : (getMatches s forceRefresh w).response = .list body)
    (hnow : w.now ≠ 0)
    (hbetween : ∀ q ∈ between, keepsList w.now q = true)
    (hlate : w'.now - w.now < 6000) :
    (getMatches (serve (getMatches s forceRefresh w).state between) false w').response
        = .list body ∧
    (getMatches (serve (getMatches s forceRefresh w).state between) false w').scrapes = [] := by
  rcases getMatches_cases s forceRefresh w with ⟨hf, data, hfresh⟩ | hmiss
  · subst hf
    rw [getMatches_cached hfresh] at hscrape
    exact absurd rfl hscrape
  · cases hlist : scrapeMatches w with
    | error message =>
      rw [getMatches_error hmiss hlist] at hok
      cases hok
    | ok r =>
      rw [getMatches_fetch hmiss hlist] at hok ⊢
      simp only [Response.list.injEq] at hok
      subst hok
      obtain ⟨h1, h2⟩ := serve_keeps_list between
        { s with
          cachedData := some ⟨w.toISOString (w.now + (r.ms : Nat)), "azscore.ng/live", r.value⟩
          lastFetchTime := some w.now }
        _ _ rfl rfl hnow hbetween
      rw [getMatches_cached (freshMatches_of_entry h1 h2 hnow hlate)]
      exact ⟨rfl, rfl⟩

/-- C1, the amended claim at work: a fetch at clock reading 1000, a details
request and a cached list reply in between, and a list request at 6999
answered with the data of the fetch. -/
theorem getMatches_fresh_after_fetch_witness :
    (getMatches
        (serve firstFetch.state
          [(.details "9", world 2000 200 (.ok pageTwo) detailOk),
           (.list false, world 6500 200 (.ok pageTwo) detailDown)])
        false (world 6999 200 (.ok pageTwo) detailDown)).response
      = .list ⟨"4200", "azscore.ng/live", evaluateMatches pageOne⟩ ∧
    (getMatches
        (serve firstFetch.state
          [(.details "9", world 2000 200 (.ok pageTwo) detailOk),
           (.list false, world 6500 200 (.ok pageTwo) detailDown)])
        false (world 6999 200 (.ok pageTwo) detailDown)).scrapes = [] :=
  getMatches_fresh_after_fetch State.init false (world 1000 200 (.ok pageOne) detailDown)
    ⟨"4200", "azscore.ng/live", evaluateMatches pageOne⟩
    [(.details "9", world 2000 200 (.ok pageTwo) detailOk),
     (.list false, world 6500 200 (.ok pageTwo) detailDown)]
    (world 6999 200 (.ok pageTwo) detailDown)
    (by decide) (by decide) (by decide) (by decide) (by decide)

/-- C1 as stated fails when the prior successful call was itself answered from
the cache: the list is fetched at clock reading 1000, the call at 6500
succeeds with the cached data, and the call at 7500, 1000 ms after that
successful call, scrapes again and sends other data. -/
theorem getMatches_refetch_after_cached_reply :
    firstFetch.response = .list ⟨"4200", "azscore.ng/live", evaluateMatches pageOne⟩ ∧
    cachedReply.response = firstFetch.response ∧ cachedReply.scrapes = [] ∧
    (7500 : Int) - 6500 < 6000 ∧
    lateCall.scrapes = [.list] ∧
    lateCall.response = .list ⟨"10700", "azscore.ng/live", evaluateMatches pageTwo⟩ ∧
    lateCall.response ≠ cachedReply.response := by
  decide

/-- C2, amended. The scrapes of `getDetails`, in order: (a) none when a fresh
detail entry exists; (b) for an id that is not empty, with no fresh detail
entry, when the first record with this id in the current list entry has a
link that is not empty, the detail scrape of that link and nothing else;
(c) otherwise the list scrape first, followed by the detail scrape of the
link found in the new list (two scrapes), or followed by nothing when the
new list has no such link (NotFound after one scrape) or when the list
scrape throws (failure after one scrape). -/
theorem getDetails_scrape_order (s : State) (matchId : String) (w : World) :
    ((freshDetails s matchId w.now).isSome = true → (getDetails s matchId w).scrapes = []) ∧
    (matchId ≠ "" → freshDetails s matchId w.now = none →
      ∀ link, cachedLink s matchId = some link →
        (getDetails s matchId w).scrapes = [.details link]) ∧
    (matchId ≠ "" → freshDetails s matchId w.now = none → cachedLink s matchId = none →
      (∀ r link, scrapeMatches w = .ok r → findLink r.value matchId = some link →
        (getDetails s matchId w).scrapes = [.list, .details link]) ∧
      (∀ r, scrapeMatches w = .ok r → findLink r.value matchId = none →
        (getDetails s matchId w).scrapes = [.list] ∧
        (getDetails s matchId w).response = .error 404 "Match not found" none) ∧
      (∀ message, scrapeMatches w = .error message →
        (getDetails s matchId w).scrapes = [.list] ∧
        (getDetails s matchId w).response =
          .error 500 "Failed to fetch match details" (some message))) := by
  refine ⟨?_, ?_, ?_⟩
  · intro hsome
    by_cases hid : matchId = ""
    · simp [getDetails, hid]
    · obtain ⟨data, hfresh⟩ := Option.isSome_iff_exists.mp hsome
      rw [getDetails_fresh hid hfresh]
  · intro hid hfresh link hlink
    rw [getDetails_cached_link hid hfresh hlink, scrapeAndStore_scrapes]
    rfl
  · intro hid hfresh hlink
    refine ⟨?_, ?_, ?_⟩
    · intro r link hlist hnew
      rw [getDetails_new_link hid hfresh hlink hlist hnew, scrapeAndStore_scrapes]
      rfl
    · intro r hlist hnew
      rw [getDetails_not_found hid hfresh hlink hlist hnew]
      exact ⟨rfl, rfl⟩
    · intro message hlist
      rw [getDetails_list_error hid hfresh hlink hlist]
      exact ⟨rfl, rfl⟩

/-- C2, the amended claim at work: one detail scrape when the list entry holds
the link, the list scrape and the detail scrape at start-up. -/
theorem getDetails_scrape_order_witness :
    (getDetails firstFetch.state "7" (world 2000 200 (.ok pageTwo) detailOk)).scrapes
      = [.details linkSeven] ∧
    (getDetails State.init "7" (world 2000 200 (.ok pageTwo) detailOk)).scrapes
      = [.list, .details linkSeven] :=
  ⟨(getDetails_scrape_order firstFetch.state "7" (world 2000 200 (.ok pageTwo) detailOk)).2.1
      (by decide) (by decide) linkSeven (by decide),
   ((getDetails_scrape_order State.init "7" (world 2000 200 (.ok pageTwo) detailOk)).2.2
      (by decide) (by decide) (by decide)).1 ⟨evaluateMatches pageTwo, 3200⟩ linkSeven
      rfl (by decide)⟩

/-- C2 as stated fails in part (c): at start-up, with neither a detail entry nor
a list entry, a request for an id the page does not show ends in NotFound
after the list scrape alone, one scrape and not two. -/
theorem getDetails_notFound_after_one_scrape :
    freshDetails State.init "9" 1000 = none ∧
    cachedLink State.init "9" = none ∧
    (getDetails State.init "9" (world 1000 200 (.ok pageOne) detailOk)).response
      = .error 404 "Match not found" none ∧
    (getDetails State.init "9" (world 1000 200 (.ok pageOne) detailOk)).scrapes = [.list] := by
  decide

/-- C3, amended. An error-shaped detail result is cached like any other: when
the detail scrape made by `getDetails` returns the object `{error, message}`
of the `catch` branch, the handler sends it inside the usual
`{timestamp, source, details}` object and stores that same object in the
detail cache under the id, dated with the clock reading of the call. -/
theorem getDetails_caches_parse_error (s : State) (matchId : String) (w : World)
    (link error message : String) (loadMs : Nat)
    (hcall : ScrapeCall.details link ∈ (getDetails s matchId w).scrapes)
    (hpage : w.detailPage link = .ok ⟨.parseError error message, loadMs⟩) :
    ∃ timestamp,
      (getDetails s matchId w).response
        = .details ⟨timestamp, link, .parseError error message⟩ ∧
      (getDetails s matchId w).state.matchDetailsCache.get matchId
        = some ⟨w.now, ⟨timestamp, link, .parseError error message⟩⟩ := by
  obtain ⟨_, scrapes, elapsed, h⟩ := getDetails_of_details_mem hcall
  rw [h, scrapeAndStore_ok hpage]
  exact ⟨_, rfl, DetailsCache.get_set_self ..⟩

/-- C3, the amended claim at work on a detail page whose evaluation ends in the
`catch` branch. -/
theorem getDetails_caches_parse_error_witness :
    ∃ timestamp,
      (getDetails firstFetch.state "7" (world 2000 200 (.ok pageTwo) detailUnparsed)).response
        = .details ⟨timestamp, linkSeven,
            .parseError "Failed to parse match details" "document is not defined"⟩ ∧
      (getDetails firstFetch.state "7"
          (world 2000 200 (.ok pageTwo) detailUnparsed)).state.matchDetailsCache.get "7"
        = some ⟨(world 2000 200 (.ok pageTwo) detailUnparsed).now, ⟨timestamp, linkSeven,
            .parseError "Failed to parse match details" "document is not defined"⟩⟩ :=
  getDetails_caches_parse_error firstFetch.state "7"
    (world 2000 200 (.ok pageTwo) detailUnparsed) linkSeven
    "Failed to parse match details" "document is not defined" 200 (by decide) rfl

/-- C3 as stated fails: the detail cache has no entry for match 7 before the
call and holds the error-shaped result for it after the call. -/
theorem getDetails_stores_parse_error :
    firstFetch.state.matchDetailsCache.get "7" = none ∧
    (getDetails firstFetch.state "7" (world 2000 200 (.ok pageTwo) detailUnparsed)).response
      = .details ⟨"5200", linkSeven,
          .parseError "Failed to parse match details" "document is not defined"⟩ ∧
    (getDetails firstFetch.state "7"
        (world 2000 200 (.ok pageTwo) detailUnparsed)).state.matchDetailsCache.get "7"
      = some ⟨2000, ⟨"5200", linkSeven,
          .parseError "Failed to parse match details" "document is not defined"⟩⟩ := by
  decide

/-- C4, amended. Step 3 of `getDetails` calls the list scraper as a forced
refresh does, and searches the newly scraped records, but it leaves the list
cache entry alone: for an id that is not empty, with no fresh detail entry
and no link found in the current list entry, when the list scrape succeeds
the first scrape is the list scrape, `cachedData` and `lastFetchTime` are
what they were before the call, and the call goes on to the detail scrape of
the link found in the new records, or ends in NotFound when there is none. -/
theorem getDetails_leaves_list_entry (s : State) (matchId : String) (w : World)
    (r : Scraped (List MatchRecord))
    (hid : matchId ≠ "") (hfresh : freshDetails s matchId w.now = none)
    (hlink : cachedLink s matchId = none) (hlist : scrapeMatches w = .ok r) :
    (getDetails s matchId w).scrapes.head? = some .list ∧
    (getDetails s matchId w).state.cachedData = s.cachedData ∧
    (getDetails s matchId w).state.lastFetchTime = s.lastFetchTime ∧
    (∀ link, findLink r.value matchId = some link →
      (getDetails s matchId w).scrapes = [.list, .details link]) ∧
    (findLink r.value matchId = none →
      (getDetails s matchId w).response = .error 404 "Match not found" none) := by
  refine ⟨?_, (getDetails_list s matchId w).1, (getDetails_list s matchId w).2, ?_, ?_⟩
  · cases hnew : findLink r.value matchId with
    | some link =>
      rw [getDetails_new_link hid hfresh hlink hlist hnew, scrapeAndStore_scrapes]; rfl
    | none => rw [getDetails_not_found hid hfresh hlink hlist hnew]; rfl
  · intro link hnew
    rw [getDetails_new_link hid hfresh hlink hlist hnew, scrapeAndStore_scrapes]; rfl
  · intro hnew
    rw [getDetails_not_found hid hfresh hlink hlist hnew]

/-- C4, the amended claim at work on a details request at start-up. -/
theorem getDetails_leaves_list_entry_witness :
    coldDetails.scrapes.head? = some .list ∧
    coldDetails.state.cachedData = State.init.cachedData ∧
    coldDetails.state.lastFetchTime = State.init.lastFetchTime ∧
    coldDetails.scrapes = [.list, .details linkSeven] :=
  have h := getDetails_leaves_list_entry State.init "7" (world 1000 200 (.ok pageOne) detailOk)
    ⟨evaluateMatches pageOne, 3200⟩ (by decide) (by decide) (by decide) rfl
  ⟨h.1, h.2.1, h.2.2.1, h.2.2.2.1 linkSeven (by decide)⟩

/-- C4 as stated fails: at start-up a details request scrapes the list and then
the details, and the list cache entry is still absent, where a forced
`getMatches` in the same world stores the scraped records with fetch time
1000. -/
theorem getDetails_refresh_not_stored :
    freshDetails State.init "7" 1000 = none ∧ cachedLink State.init "7" = none ∧
    coldDetails.scrapes = [.list, .details linkSeven] ∧
    coldDetails.state.cachedData = none ∧ coldDetails.state.lastFetchTime = none ∧
    (getMatches State.init true (world 1000 200 (.ok pageOne) detailOk)).state.cachedData
      = some ⟨"4200", "azscore.ng/live", evaluateMatches pageOne⟩ ∧
    (getMatches State.init true (world 1000 200 (.ok pageOne) detailOk)).state.lastFetchTime
      = some 1000 := by
  decide

/-- C5, amended. A successful `getDetails` that scrapes leaves exactly one
entry for the id in a well-formed detail cache; the entry holds the newly
scraped detail (the result of the last scrape of the call) and is dated with
the clock reading taken on entry to the call, before any scrape, whichever
fallback step produced the link; so a `getDetails` for the same id at a
clock reading less than 6000 ms after that reading is answered from the
entry without any scrape. -/
theorem getDetails_write_replaces (s : State) (matchId : String) (w : World)
    (data : DetailResult)
    (hwf : s.matchDetailsCache.WellFormed)
    (hok : (getDetails s matchId w).response = .details data)
    (hscr : (getDetails s matchId w).scrapes ≠ []) :
    ((getDetails s matchId w).state.matchDetailsCache.map Prod.fst).count matchId = 1 ∧
    (getDetails s matchId w).state.matchDetailsCache.get matchId = some ⟨w.now, data⟩ ∧
    (∃ link page, (getDetails s matchId w).scrapes.getLast? = some (.details link) ∧
      w.detailPage link = .ok page ∧ data.source = link ∧ data.details = page.document) ∧
    (∀ w' : World, w'.now - w.now < 6000 →
      (getDetails (getDetails s matchId w).state matchId w').response = .details data ∧
      (getDetails (getDetails s matchId w).state matchId w').scrapes = []) := by
  obtain ⟨hid, link, scrapes, elapsed, h⟩ := getDetails_scraped hok hscr
  rw [h] at hok
  obtain ⟨page, hpage, hsrc, hdoc, hrun⟩ := scrapeAndStore_details hok
  rw [h, hrun]
  have hget : (s.matchDetailsCache.set matchId ⟨w.now, data⟩).get matchId
      = some ⟨w.now, data⟩ := DetailsCache.get_set_self ..
  refine ⟨DetailsCache.count_set _ _ _ hwf, hget, ⟨link, page, by simp, hpage, hsrc, hdoc⟩, ?_⟩
  intro w' hlate
  have hfresh : freshDetails
      { s with matchDetailsCache := s.matchDetailsCache.set matchId ⟨w.now, data⟩ }
      matchId w'.now = some data := by
    simp [freshDetails, hget, MATCH_DETAILS_CACHE_DURATION, hlate]
  rw [getDetails_fresh hid hfresh]
  exact ⟨rfl, rfl⟩

/-- C5, the amended claim at work: a stale entry for match 7 is replaced by a
request at clock reading 9000, and a request at 14999 is answered from the
new entry. -/
theorem getDetails_write_replaces_witness :
    (secondDetails.state.matchDetailsCache.map Prod.fst).count "7" = 1 ∧
    secondDetails.state.matchDetailsCache.get "7"
      = some ⟨9000, ⟨"15400", linkSeven, .parsed sampleDetail⟩⟩ ∧
    (getDetails secondDetails.state "7" (world 14999 200 (.ok pageOne) detailOk)).response
      = .details ⟨"15400", linkSeven, .parsed sampleDetail⟩ ∧
    (getDetails secondDetails.state "7" (world 14999 200 (.ok pageOne) detailOk)).scrapes
      = [] :=
  have h := getDetails_write_replaces coldDetails.state "7"
    (world 9000 200 (.ok pageOne) detailOk) ⟨"15400", linkSeven, .parsed sampleDetail⟩
    (by decide) (by decide) (by decide)
  ⟨h.1, h.2.1, h.2.2.2 (world 14999 200 (.ok pageOne) detailOk) (by decide)⟩

/-- C5 as stated fails: the entry written through step 3 is dated 1000, the
clock reading on entry to the call, while the two scrapes awaited took
6400 ms, so that it is stored at clock reading 7400 and is not fresh at
that reading. -/
theorem getDetails_entry_dated_at_entry :
    coldDetails.response = .details ⟨"7400", linkSeven, .parsed sampleDetail⟩ ∧
    coldDetails.scrapes = [.list, .details linkSeven] ∧
    coldDetails.state.matchDetailsCache.get "7"
      = some ⟨1000, ⟨"7400", linkSeven, .parsed sampleDetail⟩⟩ ∧
    coldDetails.elapsed = 6400 ∧
    ¬ ((1000 + 6400 : Int) - 1000 < MATCH_DETAILS_CACHE_DURATION) ∧
    freshDetails coldDetails.state "7" (1000 + 6400) = none := by
  decide

/-- C6. Atomicity on failure: when a scrape called by `getMatches` or by
`getDetails` throws, the call answers with status 500 and the state (the
list cache entry with its fetch time, and the whole detail cache) is what it
was before the call. -/
theorem scrape_failure_leaves_caches (s : State) (req : Request) (w : World)
    (hraise : ∃ c ∈ (handle s req w).scrapes, raises w c = true) :
    (∃ error message, (handle s req w).response = .error 500 error (some message)) ∧
    (handle s req w).state = s := by
  cases req with
  | list forceRefresh =>
    simp only [handle] at hraise ⊢
    rcases getMatches_cases s forceRefresh w with ⟨hf, data, hfresh⟩ | hmiss
    · subst hf
      rw [getMatches_cached hfresh] at hraise
      simp at hraise
    · cases hlist : scrapeMatches w with
      | error message => rw [getMatches_error hmiss hlist]; exact ⟨⟨_, _, rfl⟩, rfl⟩
      | ok r =>
        rw [getMatches_fetch hmiss hlist] at hraise
        simp [raises_list_of_ok hlist] at hraise
  | details matchId =>
    simp only [handle] at hraise ⊢
    by_cases hid : matchId = ""
    · simp [getDetails, hid] at hraise
    rcases getDetails_cases s matchId w hid with
      ⟨d, _, h⟩ | ⟨l, _, _, h⟩ | ⟨message, _, _, _, h⟩ | ⟨r, l, _, _, hlist, _, h⟩ |
      ⟨r, _, _, hlist, _, h⟩
    · rw [h] at hraise; simp at hraise
    · rw [h] at hraise ⊢
      exact scrapeAndStore_failure (by simp) hraise
    · rw [h]; exact ⟨⟨_, _, rfl⟩, rfl⟩
    · rw [h] at hraise ⊢
      exact scrapeAndStore_failure (by simp [raises_list_of_ok hlist]) hraise
    · rw [h] at hraise
      simp [raises_list_of_ok hlist] at hraise

/-- C6 at work: a details request whose list scrape finds the link and whose
detail scrape throws. -/
theorem scrape_failure_leaves_caches_witness :
    (∃ c ∈ (handle coldDetails.state (.details "8")
        (world 9000 200 (.ok pageTwo) detailDown)).scrapes,
      raises (world 9000 200 (.ok pageTwo) detailDown) c = true) ∧
    (∃ error message,
      (handle coldDetails.state (.details "8")
          (world 9000 200 (.ok pageTwo) detailDown)).response
        = .error 500 error (some message)) ∧
    (handle coldDetails.state (.details "8")
        (world 9000 200 (.ok pageTwo) detailDown)).state = coldDetails.state :=
  have hraise : ∃ c ∈ (handle coldDetails.state (.details "8")
        (world 9000 200 (.ok pageTwo) detailDown)).scrapes,
      raises (world 9000 200 (.ok pageTwo) detailDown) c = true :=
    ⟨.details "https://azscore.ng/en/football/stats/owls-bears", by decide, by decide⟩
  ⟨hraise, scrape_failure_leaves_caches coldDetails.state (.details "8")
    (world 9000 200 (.ok pageTwo) detailDown) hraise⟩

/-- C7, amended. For an id that is not empty, when the list scrape succeeds,
`getDetails` ends in NotFound exactly when there is no fresh detail entry
for the id, the first record with this id in the current list entry has no
link (or there is no such record), and likewise in the freshly scraped
records; then the list scrape is the only scrape and the state is
unchanged. -/
theorem getDetails_notFound_iff (s : State) (matchId : String) (w : World)
    (r : Scraped (List MatchRecord))
    (hid : matchId ≠ "") (hlist : scrapeMatches w = .ok r) :
    ((getDetails s matchId w).response = .error 404 "Match not found" none ↔
      freshDetails s matchId w.now = none ∧ cachedLink s matchId = none ∧
        findLink r.value matchId = none) ∧
    ((getDetails s matchId w).response = .error 404 "Match not found" none →
      (getDetails s matchId w).scrapes = [.list] ∧ (getDetails s matchId w).state = s) := by
  have hscrape : ∀ (l : String) (scrapes : List ScrapeCall) (elapsed : Nat),
      (scrapeAndStore s matchId l w scrapes elapsed).response
        ≠ .error 404 "Match not found" none := by
    intro l scrapes elapsed
    cases hpage : w.detailPage l with
    | error message => rw [scrapeAndStore_error hpage]; simp
    | ok page => rw [scrapeAndStore_ok hpage]; simp
  rcases getDetails_cases s matchId w hid with
    ⟨d, hf, h⟩ | ⟨l, hf, hl, h⟩ | ⟨message, _, _, he, h⟩ | ⟨r', l, hf, hl, hr, hn, h⟩ |
    ⟨r', hf, hl, hr, hn, h⟩
  · rw [h]; simp [hf]
  · rw [h]; simp [hf, hl, hscrape]
  · rw [he] at hlist; cases hlist
  · rw [hr] at hlist; cases hlist
    rw [h]; simp [hf, hl, hn, hscrape]
  · rw [hr] at hlist; cases hlist
    rw [h]; simp [hf, hl, hn]

/-- C7, the amended claim at work on an id the list page does not show. -/
theorem getDetails_notFound_iff_witness :
    (getDetails firstFetch.state "9" (world 2000 200 (.ok pageOne) detailOk)).response
      = .error 404 "Match not found" none ∧
    (getDetails firstFetch.state "9" (world 2000 200 (.ok pageOne) detailOk)).scrapes
      = [.list] ∧
    (getDetails firstFetch.state "9" (world 2000 200 (.ok pageOne) detailOk)).state
      = firstFetch.state :=
  have h := getDetails_notFound_iff firstFetch.state "9"
    (world 2000 200 (.ok pageOne) detailOk) ⟨evaluateMatches pageOne, 3200⟩ (by decide) rfl
  have h404 := h.1.mpr ⟨by decide, by decide, by decide⟩
  ⟨h404, h.2 h404⟩

/-- C7 as stated fails from left to right of its equivalence: the current list
entry shows match 7 twice, first without a link and then with one, and the
request for match 7 ends in NotFound although the list entry holds a record
with this id and a link that is not empty. -/
theorem getDetails_notFound_despite_link :
    twinFetch.state.cachedData.map
        (fun data => data.matchList.map fun m => (m.game.id, m.game.link))
      = some [("7", ""), ("7", linkSeven)] ∧
    (getDetails twinFetch.state "7" (world 2000 200 (.ok pageTwins) detailOk)).response
      = .error 404 "Match not found" none := by
  decide

/-- C8, amended. For a status indicator tagged red and not blue, with trimmed
text `t` that is not empty, the record has status Live and its time is `t`
itself when `t` contains the minute mark anywhere, and `t` followed by one
minute mark otherwise; the time ends with the mark when `t` ends with it or
has none. The time of every record with status Live contains the mark. -/
theorem live_time_minute_mark (m : MatchElement) :
    (∀ (gameInfo : GameInfo) (e : Element),
      m.gameInfoElement = some gameInfo → gameInfo.liveTimeElement = some e →
      "color--red" ∈ e.classList → "color--blue" ∉ e.classList → trim e.textContent ≠ "" →
        (extractMatch m).game.status = "Live" ∧
        (extractMatch m).game.time =
          (if includesChar (trim e.textContent) minuteMark = true then trim e.textContent
            else (trim e.textContent).push minuteMark) ∧
        (endsWithChar (trim e.textContent) minuteMark = true ∨
            includesChar (trim e.textContent) minuteMark = false →
          endsWithChar (extractMatch m).game.time minuteMark = true)) ∧
    ((extractMatch m).game.status = "Live" →
      includesChar (extractMatch m).game.time minuteMark = true) := by
  refine ⟨?_, fun hlive => timeAndStatus_live_includes m.gameInfoElement hlive⟩
  intro gameInfo e hg he hred hblue htext
  have hts := timeAndStatus_indicator he htext
  have hb : ¬ e.classList.contains "color--blue" = true := by simpa using hblue
  have hr : e.classList.contains "color--red" = true := by simpa using hred
  rw [if_neg hb, if_pos hr] at hts
  rw [extractMatch_status, extractMatch_time, hg, hts]
  refine ⟨rfl, ?_, ?_⟩
  · by_cases hi : includesChar (trim e.textContent) minuteMark = true <;> simp [hi]
  · rintro (hend | hnone)
    · simp [endsWithChar_includes hend, hend]
    · simp [hnone, endsWithChar_push]

/-- C8, the amended claim at work on the text 45 tagged red. -/
theorem live_time_minute_mark_witness :
    (extractMatch minute45).game.status = "Live" ∧
    (extractMatch minute45).game.time = "45\x27" ∧
    endsWithChar (extractMatch minute45).game.time minuteMark = true ∧
    includesChar (extractMatch minute45).game.time minuteMark = true :=
  have h := (live_time_minute_mark minute45).1 _ ⟨" 45 ", ["status", "color--red"]⟩ rfl rfl
    (by decide) (by decide) (by decide)
  ⟨h.1, h.2.1.trans (by decide), h.2.2 (Or.inr (by decide)),
    (live_time_minute_mark minute45).2 h.1⟩

/-- C8 as stated fails on a red indicator whose text has the minute mark in the
middle: no mark is appended, and the time of this Live record does not end
with the mark. -/
theorem live_time_mark_not_last :
    (extractMatch stoppageTime).game.status = "Live" ∧
    (extractMatch stoppageTime).game.time = "45\x27+2" ∧
    endsWithChar (extractMatch stoppageTime).game.time minuteMark = false := by
  decide

/-- C9, amended. For a status indicator whose trimmed text is not empty the
status is decided by the first style tag found in the order blue, red,
green: HalfTime when the blue tag is present, Live when red is present
without blue, Finished when green is present without blue and red, Unknown
when none of the three is present. -/
theorem status_by_style_tag (m : MatchElement) (gameInfo : GameInfo) (e : Element)
    (hg : m.gameInfoElement = some gameInfo) (he : gameInfo.liveTimeElement = some e)
    (htext : trim e.textContent ≠ "") :
    ("color--blue" ∈ e.classList → (extractMatch m).game.status = "HalfTime") ∧
    ("color--blue" ∉ e.classList → "color--red" ∈ e.classList →
      (extractMatch m).game.status = "Live") ∧
    ("color--blue" ∉ e.classList → "color--red" ∉ e.classList →
      "color--green" ∈ e.classList → (extractMatch m).game.status = "Finished") ∧
    ("color--blue" ∉ e.classList → "color--red" ∉ e.classList →
      "color--green" ∉ e.classList → (extractMatch m).game.status = "Unknown") := by
  have hts := timeAndStatus_indicator he htext
  rw [extractMatch_status, hg, hts]
  refine ⟨?_, ?_, ?_, ?_⟩
  · intro hb; simp [hb]
  · intro hb hr; simp [hb, hr]
  · intro hb hr hgr; simp [hb, hr, hgr]
  · intro hb hr hgr; simp [hb, hr, hgr]

/-- C9, the amended claim at work on a green indicator. -/
theorem status_by_style_tag_witness :
    (extractMatch fullTime).game.status = "Finished" :=
  (status_by_style_tag fullTime _ ⟨"FT", ["status", "color--green"]⟩ rfl rfl
    (by decide)).2.2.1 (by decide) (by decide) (by decide)

/-- C9 as stated fails on an indicator whose text is not empty but blank, which
is classified Scheduled, and on an indicator tagged both blue and red, which
is HalfTime and not Live. -/
theorem status_blank_or_two_tags :
    (extractMatch blankIndicator).game.status = "Scheduled" ∧
    (extractMatch blueAndRed).game.status = "HalfTime" := by
  decide

/-- C10, amended. For a match container with no live indicator the status is
Scheduled and the time is the trimmed text of the scheduled-time field when
the field is present, which is the text itself when it has no white space
at either end, and TBD when the field is absent. -/
theorem scheduled_without_indicator (m : MatchElement)
    (hno : m.gameInfoElement.bind (·.liveTimeElement) = none) :
    (extractMatch m).game.status = "Scheduled" ∧
    (∀ text, m.gameInfoElement.bind (·.scheduledTimeElement) = some text →
      (extractMatch m).game.time = trim text) ∧
    (∀ text, m.gameInfoElement.bind (·.scheduledTimeElement) = some text →
      (∀ c, text.data.head? = some c → isTrimChar c = false) →
      (∀ c, text.data.getLast? = some c → isTrimChar c = false) →
      (extractMatch m).game.time = text) ∧
    (m.gameInfoElement.bind (·.scheduledTimeElement) = none →
      (extractMatch m).game.time = "TBD") := by
  have hts := timeAndStatus_no_indicator _ hno
  rw [extractMatch_status, extractMatch_time, hts]
  refine ⟨rfl, ?_, ?_, ?_⟩
  · intro text h; simp [h, textOr]
  · intro text h hhead hlast
    simp only [h, textOr]
    exact trim_eq_self text hhead hlast
  · intro h; simp [h, textOr]

/-- C10, the amended claim at work on a padded text, a plain text and a
container with no scheduled-time field. -/
theorem scheduled_without_indicator_witness :
    (extractMatch kickOffPadded).game.status = "Scheduled" ∧
    (extractMatch kickOffPadded).game.time = trim " 19:00 " ∧
    (extractMatch kickOff).game.time = "19:00" ∧
    (extractMatch (container "7" none)).game.time = "TBD" :=
  have h := scheduled_without_indicator kickOffPadded (by decide)
  ⟨h.1, h.2.1 " 19:00 " (by decide),
    (scheduled_without_indicator kickOff (by decide)).2.2.1 "19:00" (by decide)
      (by decide) (by decide),
    (scheduled_without_indicator (container "7" none) (by decide)).2.2.2 (by decide)⟩

/-- C10 as stated fails on a scheduled-time field whose text has blanks around
it: the time is the trimmed text, not the text verbatim. -/
theorem scheduled_time_trimmed :
    kickOffPadded.gameInfoElement.bind (·.liveTimeElement) = none ∧
    kickOffPadded.gameInfoElement.bind (·.scheduledTimeElement) = some " 19:00 " ∧
    (extractMatch kickOffPadded).game.status = "Scheduled" ∧
    (extractMatch kickOffPadded).game.time = "19:00" ∧
    (extractMatch kickOffPadded).game.time ≠ " 19:00 " := by
  decide

/-- C11, amended. For every `href` of the enclosing game anchor that contains
`/game/`, the link of the record is the origin `https://azscore.ng`
followed by the `href` with its first `/game/` replaced by `/stats/`: the
`href` splits at that first occurrence into `before ++ "/game/" ++ after` and
the link is the origin, `before`, `/stats/` and `after`. The origin occurs
exactly once in the link when the `href` does not contain it, and no `/game/`
is left in the link when the `href` contains it exactly once. With no
enclosing game anchor the link is the empty string. -/
theorem link_rewrite (m : MatchElement) :
    (∀ href, m.matchLinkElement = some href → 0 < occurrences href "/game/" →
      (extractMatch m).game.link
        = "https://azscore.ng" ++ replaceFirst href "/game/" "/stats/" ∧
      (∃ before after, href = before ++ "/game/" ++ after ∧
        (extractMatch m).game.link = "https://azscore.ng" ++ before ++ "/stats/" ++ after ∧
        ∀ before' after', href = before' ++ "/game/" ++ after' →
          before.length ≤ before'.length) ∧
      (occurrences href "https://azscore.ng" = 0 →
        occurrences (extractMatch m).game.link "https://azscore.ng" = 1) ∧
      (occurrences href "/game/" = 1 →
        occurrences (extractMatch m).game.link "/game/" = 0)) ∧
    (m.matchLinkElement = none → (extractMatch m).game.link = "") := by
  constructor
  · intro href hhref hocc
    have hlink : (extractMatch m).game.link = linkOf href := by
      simp [extractMatch, hhref]
    have hdata := linkOf_data hocc
    rw [hlink]
    refine ⟨?_, ?_, ?_, ?_⟩
    · apply String.ext
      rw [hdata]; simp [replaceFirst]
    · obtain ⟨b, a, hs, hr, hmin⟩ :=
        replaceFirstChars_split "/game/".data "/stats/".data (by decide) href.data hocc
      refine ⟨⟨b⟩, ⟨a⟩, ?_, ?_, ?_⟩
      · apply String.ext; simp [hs]
      · apply String.ext; rw [hdata, hr]; simp
      · intro before' after' h'
        exact hmin before'.data after'.data (by rw [h']; simp)
    · intro h0
      unfold occurrences at h0 ⊢
      rw [hdata, origin_count_origin_append,
        countOccurrences_replaceFirstChars_zero _ _ _ (by decide) origin_suffix_stats
          origin_count_stats _ h0]
    · intro h1
      unfold occurrences at h1 ⊢
      rw [hdata, game_count_origin_append,
        countOccurrences_replaceFirstChars_one _ _ (by decide) game_suffix_stats
          game_count_stats _ h1]
  · intro hnone
    simp [extractMatch, hnone, linkOf]

/-- C11, the amended claim at work on a site-relative game link, and on a
container outside any game anchor. -/
theorem link_rewrite_witness :
    (extractMatch (container "7" (some "/en/football/game/lions-tigers"))).game.link
      = linkSeven ∧
    occurrences (extractMatch (container "7" (some "/en/football/game/lions-tigers"))).game.link
        "https://azscore.ng" = 1 ∧
    occurrences (extractMatch (container "7" (some "/en/football/game/lions-tigers"))).game.link
        "/game/" = 0 ∧
    (extractMatch (container "7" none)).game.link = "" :=
  have h := (link_rewrite (container "7" (some "/en/football/game/lions-tigers"))).1
    "/en/football/game/lions-tigers" rfl (by decide)
  ⟨h.1.trans (by decide), h.2.2.1 (by decide), h.2.2.2 (by decide),
    (link_rewrite (container "7" none)).2 rfl⟩

/-- C11 as stated fails on a game link with a second `/game/`, which stays in the
result, and on an absolute game link, where the origin occurs twice in the
result. -/
theorem link_rewrite_leaves_game_or_doubles_origin :
    0 < occurrences "/en/football/game/lions-tigers/game/report" "/game/" ∧
    (extractMatch (container "7"
        (some "/en/football/game/lions-tigers/game/report"))).game.link
      = "https://azscore.ng/en/football/stats/lions-tigers/game/report" ∧
    occurrences "https://azscore.ng/en/football/stats/lions-tigers/game/report" "/game/" = 1 ∧
    0 < occurrences "https://azscore.ng/en/football/game/lions-tigers" "/game/" ∧
    (extractMatch (container "7"
        (some "https://azscore.ng/en/football/game/lions-tigers"))).game.link
      = "https://azscore.nghttps://azscore.ng/en/football/stats/lions-tigers" ∧
    occurrences "https://azscore.nghttps://azscore.ng/en/football/stats/lions-tigers"
        "https://azscore.ng" = 2 := by
  decide

/-- C12 fails on the code: for a container with form markers and scorer
fragments the extractor computes `homeForm`, `awayForm`, `homeScorers` and
`awayScorers` as the claim describes, and the object it pushes is the one of
the same container without any marker or scorer: it carries only the league
and the nine `match` fields. -/
theorem summary_without_form_and_scorers :
    homeForm withFormAndScorers = ["W", "L"] ∧ awayForm withFormAndScorers = ["D"] ∧
    homeScorers withFormAndScorers = [⟨"Kane", "45\x27"⟩] ∧
    awayScorers withFormAndScorers = [⟨"Salah", "60\x27"⟩] ∧
    extractMatch withFormAndScorers
      = extractMatch (container "7" (some "/en/football/game/lions-tigers")) ∧
    extractMatch withFormAndScorers
      = ⟨⟨"Unknown", "Unknown"⟩,
          ⟨"7", "TBD", "Scheduled", "", "", "", ⟨"0", "0", "0-0"⟩, false, linkSeven⟩⟩ := by
  decide

/-- C13. The events list of a detail page is the list in the words of the
specification: the home-side scorer fragments that have a name and a time,
in document order, each a goal of the home team name, followed by the
away-side fragments filtered the same way, each a goal of the away team
name; nothing is sorted by time. -/
theorem events_home_then_away (document : DetailDocument) :
    (evaluateDetails document).events = eventsSpec document ∧
    (∀ e ∈ (evaluateDetails document).events, e.type = "goal") ∧
    ∃ homeEvents awayEvents,
      (evaluateDetails document).events = homeEvents ++ awayEvents ∧
      homeEvents = (document.homePlayerElements.filter hasNameAndTime).map
        (goalOf (evaluateDetails document).home.name) ∧
      awayEvents = (document.awayPlayerElements.filter hasNameAndTime).map
        (goalOf (evaluateDetails document).away.name) := by
  have h : (evaluateDetails document).events = eventsSpec document := by
    simp only [evaluateDetails, eventsSpec, pushGoals_eq, List.nil_append]
  refine ⟨h, ?_, _, _, h, rfl, rfl⟩
  intro e he
  rw [h] at he
  simp only [eventsSpec, List.mem_append, List.mem_map] at he
  rcases he with ⟨p, _, rfl⟩ | ⟨p, _, rfl⟩ <;> rfl

/-- C13 at work on a page with a home goal in minute 80 and an away goal in
minute 10: the later home goal comes first. -/
theorem events_home_then_away_witness :
    (evaluateDetails lateHomeGoal).events = eventsSpec lateHomeGoal ∧
    eventsSpec lateHomeGoal
      = [⟨"80\x27", "goal", "Kane", "Lions"⟩, ⟨"10\x27", "goal", "Salah", "Tigers"⟩] :=
  ⟨(events_home_then_away lateHomeGoal).1, by decide⟩

end LiveScore
